import Mathlib

/-!
Namespace launchers: `userns_child_exec.c` and `clone.c`.

A shallow embedding of the two C programs of the repository.

* C strings are lists of characters (the bytes before the terminating NUL),
  so `strlen` is `List.length`.
* System calls are answered by an environment record (`Env`); every call the
  program makes is appended to a trace of `Event`s, and a run ends in an
  `Outcome`.
* File descriptors are named by what they refer to (`Fd`): the kernel hands out
  a descriptor that differs from every descriptor already open, so the pipe
  ends and an opened map file never share one.
-/

namespace Launcher

/-- A C string: the characters before the terminating NUL. -/
abbrev CStr := List Char

/-! Platform constants (`<stdlib.h>`, `<limits.h>`, `<linux/sched.h>`, `<signal.h>`) -/

def EXIT_SUCCESS : Nat := 0
def EXIT_FAILURE : Nat := 1
def INT_MAX : Nat := 2147483647
def PATH_MAX : Nat := 4096
def CLONE_NEWNS : Nat := 0x00020000
def CLONE_NEWUTS : Nat := 0x04000000
def CLONE_NEWIPC : Nat := 0x08000000
def CLONE_NEWUSER : Nat := 0x10000000
def CLONE_NEWPID : Nat := 0x20000000
def CLONE_NEWNET : Nat := 0x40000000
def SIGCHLD : Nat := 17

/-- The constant `MAP_BUF_SIZE` of `main` (userns_child_exec.c, line 151). -/
def MAP_BUF_SIZE : Nat := 100

/-! Wait statuses -/

/-- What `waitpid` reports about a terminated child: it exited with a code
(0..255) or it was killed by a signal. -/
inductive WaitStatus
  | exited (code : Nat)
  | signaled (sig : Nat)
deriving DecidableEq, Repr

/-- The macro `WIFEXITED` of `<sys/wait.h>`: true when the child exited normally. -/
def WIFEXITED : WaitStatus → Bool
  | .exited _ => true
  | .signaled _ => false

/-- The macro `WEXITSTATUS` of `<sys/wait.h>`: the low eight bits of the child's exit
code. It is only meaningful when `WIFEXITED` holds. -/
def WEXITSTATUS : WaitStatus → Nat
  | .exited code => code % 256
  | .signaled _ => 0

/-! Traces -/

/-- File descriptors, named by what they refer to. -/
inductive Fd
  | pipe_rd
  | pipe_wr
  | map_file (path : CStr)
deriving DecidableEq, Repr

/-- The calls a run makes, in order. -/
inductive Event
  | usage
  | pipe
  | clone (flags : Nat)
  | printf_pid (pid : Int)
  | printf_terminating
  | printf_exec (file : Option CStr)
  | open_rdwr (path : CStr)
  | write (fd : Fd) (buf : CStr) (count : Nat)
  | read (fd : Fd) (count : Nat)
  | close (fd : Fd)
  | waitpid (pid : Int)
  | execvp (file : Option CStr) (argv : List CStr)
  | malloc (size : Nat)
  | stderr (msg : String)
  | perror (msg : String)
deriving DecidableEq, Repr

/-- How a run ends: `exit(code)`, a successful `exec` (the process image is
replaced), or undefined behaviour (signed overflow of an `int`, a null `argv[0]`
handed to `printf` and `execvp`). -/
inductive Outcome
  | exit (code : Nat)
  | exec
  | undefined
deriving DecidableEq, Repr

/-- A run: the trace of calls and the way it ended. -/
abbrev Run := List Event × Outcome

/-- The answers of the operating system to the calls of the parent. -/
structure Env where
  /-- result of `pipe(args.pipe_fd)` -/
  pipe_ret : Int
  /-- result of `clone(...)`: the child's pid, or `-1` -/
  clone_ret : Int
  /-- result of `getuid()` -/
  getuid : Nat
  /-- result of `getgid()` -/
  getgid : Nat
  /-- result of `open(path, O_RDWR)`; `-1` on failure -/
  open_ret : CStr → Int
  /-- result of `write(fd, buf, count)` -/
  write_ret : Fd → CStr → Nat → Int
  /-- result of `waitpid(child_pid, NULL, 0)` -/
  waitpid_ret : Int
  /-- how the child terminates -/
  child_status : WaitStatus

/-! Formatting -/

/-- The conversion `%ld` of `printf`: a signed decimal numeral. -/
def fmt_ld (v : Int) : CStr :=
  if v < 0 then '-' :: Nat.toDigits 10 v.natAbs else Nat.toDigits 10 v.toNat

/-- The call `snprintf(buf, size, ...)`: at most `size - 1` characters of the
formatted text are stored (followed by the terminating NUL). -/
def snprintf (size : Nat) (text : CStr) : CStr :=
  text.take (size - 1)

/-- The implicit conversion of an `ssize_t` to `size_t` in a comparison. -/
def to_size_t (r : Int) : Nat :=
  (r % 2 ^ 64).toNat

/-! `update_map` (userns_child_exec.c, lines 83-110) -/

/-- The loop `for (j = 0; j < map_len; j++) if (mapping[j] == ',') mapping[j] = '\n';`
with `fuel` iterations left and loop index `j`. -/
def comma_loop : Nat → Nat → CStr → CStr
  | 0, _, mapping => mapping
  | fuel + 1, j, mapping =>
    comma_loop fuel (j + 1) (if mapping.get? j = some ',' then mapping.set j '\n' else mapping)

/-- The function `update_map(mapping, map_file)`. The result is the trace and `none`
when the function returns, `some outcome` when the process ends inside it.
The loop index `j` is an `int`: when `map_len` exceeds `INT_MAX` the increment
overflows, which is undefined behaviour. -/
def update_map (env : Env) (mapping map_file : CStr) : List Event × Option Outcome :=
  let map_len := mapping.length
  if INT_MAX < map_len then ([], some .undefined)
  else
    let mapping := comma_loop map_len 0 mapping
    let fd := env.open_ret map_file
    if fd = -1 then
      ([.open_rdwr map_file, .stderr "ERROR: open"], some (.exit EXIT_FAILURE))
    else if to_size_t (env.write_ret (.map_file map_file) mapping map_len) ≠ map_len then
      ([.open_rdwr map_file, .write (.map_file map_file) mapping map_len,
        .stderr "ERROR: write"], some (.exit EXIT_FAILURE))
    else
      ([.open_rdwr map_file, .write (.map_file map_file) mapping map_len,
        .close (.map_file map_file)], none)

/-! `childFunc` (userns_child_exec.c, lines 112-138) -/

/-- The structure `child_args`; the two pipe descriptors are `Fd.pipe_rd` and
`Fd.pipe_wr`. -/
structure child_args where
  argv : List CStr

/-- The function `childFunc(arg)`. `read_ret` is the result of the one-byte `read`;
`execvp_ret` is `none` when `execvp` replaces the process image and `some r` when it
returns `r`. When no command was given, `args->argv[0]` is the null pointer that ends
`argv` (line 191 does not test for it): `printf` and `execvp` are then called with a
null string, which is undefined behaviour. -/
def childFunc (args : child_args) (read_ret : Int) (execvp_ret : Option Int) : Run :=
  if read_ret ≠ 0 then
    ([.close .pipe_wr, .read .pipe_rd 1,
      .stderr "Failure in child: read from pipe returned != 0"], .exit EXIT_FAILURE)
  else
    match args.argv with
    | [] =>
      ([.close .pipe_wr, .read .pipe_rd 1, .printf_exec none, .execvp none []], .undefined)
    | file :: rest =>
      match execvp_ret with
      | none =>
        ([.close .pipe_wr, .read .pipe_rd 1, .printf_exec (some file),
          .execvp (some file) (file :: rest)], .exec)
      | some _ =>
        ([.close .pipe_wr, .read .pipe_rd 1, .printf_exec (some file),
          .execvp (some file) (file :: rest), .perror "execvp"], .exit EXIT_FAILURE)

/-! `main` of userns_child_exec.c (lines 144-253) -/

/-- What one call of `getopt(argc, argv, "+imnpuUM:G:zv")` returns: an option
letter (with `optarg` for `-M` and `-G`), or `?` for anything else. -/
inductive GetoptRet
  | i | m | n | p | u | v | z
  | M (optarg : CStr)
  | G (optarg : CStr)
  | U
  | unknown
deriving DecidableEq, Repr

/-- The local variables of `main` that option parsing sets. -/
structure Opts where
  flags : Nat
  verbose : Nat
  uid_map : Option CStr
  gid_map : Option CStr
  map_zero : Nat
deriving DecidableEq, Repr

/-- The initialisation of lines 163-167. -/
def Opts.init : Opts := ⟨0, 0, none, none, 0⟩

/-- The `switch (opt)` of lines 169-181; `none` is the call of `usage`. -/
def parse_step (o : Opts) : GetoptRet → Option Opts
  | .i => some ⟨o.flags ||| CLONE_NEWIPC, o.verbose, o.uid_map, o.gid_map, o.map_zero⟩
  | .m => some ⟨o.flags ||| CLONE_NEWNS, o.verbose, o.uid_map, o.gid_map, o.map_zero⟩
  | .n => some ⟨o.flags ||| CLONE_NEWNET, o.verbose, o.uid_map, o.gid_map, o.map_zero⟩
  | .p => some ⟨o.flags ||| CLONE_NEWPID, o.verbose, o.uid_map, o.gid_map, o.map_zero⟩
  | .u => some ⟨o.flags ||| CLONE_NEWUTS, o.verbose, o.uid_map, o.gid_map, o.map_zero⟩
  | .v => some ⟨o.flags, 1, o.uid_map, o.gid_map, o.map_zero⟩
  | .z => some ⟨o.flags, o.verbose, o.uid_map, o.gid_map, 1⟩
  | .M optarg => some ⟨o.flags, o.verbose, some optarg, o.gid_map, o.map_zero⟩
  | .G optarg => some ⟨o.flags, o.verbose, o.uid_map, some optarg, o.map_zero⟩
  | .U => some ⟨o.flags ||| CLONE_NEWUSER, o.verbose, o.uid_map, o.gid_map, o.map_zero⟩
  | .unknown => none

/-- The `while ((opt = getopt(...)) != -1)` loop over the options of the command
line. -/
def parse_loop : Opts → List GetoptRet → Option Opts
  | o, [] => some o
  | o, opt :: rest =>
    match parse_step o opt with
    | none => none
    | some o2 => parse_loop o2 rest

/-- The condition of the `if` of lines 186-188. -/
def conflict (o : Opts) : Bool :=
  ((o.uid_map.isSome || o.gid_map.isSome || o.map_zero != 0) &&
      (o.flags &&& CLONE_NEWUSER) == 0) ||
    (o.map_zero != 0 && (o.uid_map.isSome || o.gid_map.isSome))

/-- The text `snprintf(map_path, PATH_MAX, "/proc/%ld/<name>", (long) child_pid)`. -/
def map_path (child_pid : Int) (name : String) : CStr :=
  snprintf PATH_MAX ("/proc/".toList ++ fmt_ld child_pid ++ '/' :: name.toList)

/-- The text `snprintf(map_buf, MAP_BUF_SIZE, "0 %ld 1", id)` for a `long` value `id`. -/
def zero_map (id : Int) : CStr :=
  snprintf MAP_BUF_SIZE ("0 ".toList ++ fmt_ld id ++ " 1".toList)

/-- Lines 222-230: the UID map. -/
def uid_stage (env : Env) (o : Opts) : List Event × Option Outcome :=
  if o.map_zero != 0 then
    update_map env (zero_map (Int.ofNat env.getuid)) (map_path env.clone_ret "uid_map")
  else
    match o.uid_map with
    | some uid_map => update_map env uid_map (map_path env.clone_ret "uid_map")
    | none => ([], none)

/-- Lines 231-239: the GID map. -/
def gid_stage (env : Env) (o : Opts) : List Event × Option Outcome :=
  if o.map_zero != 0 then
    update_map env (zero_map (Int.ofNat env.getgid)) (map_path env.clone_ret "gid_map")
  else
    match o.gid_map with
    | some gid_map => update_map env gid_map (map_path env.clone_ret "gid_map")
    | none => ([], none)

/-- Lines 244-252: release the child, wait for it, exit. -/
def finish (env : Env) (o : Opts) : Run :=
  if env.waitpid_ret = -1 then
    ([.close .pipe_wr, .waitpid env.clone_ret, .perror "waitpid"], .exit EXIT_FAILURE)
  else
    ([.close .pipe_wr, .waitpid env.clone_ret] ++
      (if o.verbose != 0 then [.printf_terminating] else []), .exit EXIT_SUCCESS)

/-- Lines 204-252: the parent after the options are accepted. -/
def spawn (env : Env) (o : Opts) : Run :=
  if env.pipe_ret = -1 then ([.pipe, .perror "pipe"], .exit EXIT_FAILURE)
  else if env.clone_ret = -1 then
    ([.pipe, .clone (o.flags ||| SIGCHLD), .perror "clone"], .exit EXIT_FAILURE)
  else
    let start : List Event := [.pipe, .clone (o.flags ||| SIGCHLD)] ++
      (if o.verbose != 0 then [.printf_pid env.clone_ret] else [])
    match uid_stage env o with
    | (t1, some out) => (start ++ t1, out)
    | (t1, none) =>
      match gid_stage env o with
      | (t2, some out) => (start ++ t1 ++ t2, out)
      | (t2, none) => (start ++ t1 ++ t2 ++ (finish env o).1, (finish env o).2)

/-- The function `main` of userns_child_exec.c, on the sequence of options that
`getopt` reports. -/
def main (env : Env) (opts : List GetoptRet) : Run :=
  match parse_loop Opts.init opts with
  | none => ([.usage], .exit EXIT_FAILURE)
  | some o =>
    if conflict o then ([.usage], .exit EXIT_FAILURE)
    else spawn env o

/-! Vocabulary of the statements -/

/-- What the loop body of `update_map` does to one character. -/
def comma_to_newline (c : Char) : Char :=
  if c = ',' then '\n' else c

/-- The `write` calls of a trace: descriptor, buffer and count, in order. -/
def writes : List Event → List (Fd × CStr × Nat)
  | [] => []
  | .write fd buf count :: rest => (fd, buf, count) :: writes rest
  | _ :: rest => writes rest

/-- The paths of the `open` calls of a trace, in order. -/
def opens : List Event → List CStr
  | [] => []
  | .open_rdwr path :: rest => path :: opens rest
  | _ :: rest => opens rest

/-- The string that lines 222-229 hand to `update_map` for the UID map, if any: the
zero-map text under `-z`, else the argument of `-M`. -/
def uid_text (env : Env) (o : Opts) : Option CStr :=
  if o.map_zero != 0 then some (zero_map (Int.ofNat env.getuid)) else o.uid_map

/-- The string that lines 231-238 hand to `update_map` for the GID map, if any. -/
def gid_text (env : Env) (o : Opts) : Option CStr :=
  if o.map_zero != 0 then some (zero_map (Int.ofNat env.getgid)) else o.gid_map

/-- The calls of a successful `update_map(mapping, map_file)`: open, one write of the
text with its commas replaced, close. -/
def map_events (map_file : CStr) : Option CStr → List Event
  | none => []
  | some mapping =>
    [.open_rdwr map_file,
      .write (.map_file map_file) (mapping.map comma_to_newline) mapping.length,
      .close (.map_file map_file)]

/-- The argument of the last `-M` among the options, if there is one. -/
def arg_M : List GetoptRet → Option CStr
  | [] => none
  | opt :: rest =>
    match arg_M rest with
    | some optarg => some optarg
    | none =>
      match opt with
      | .M optarg => some optarg
      | _ => none

/-- The argument of the last `-G` among the options, if there is one. -/
def arg_G : List GetoptRet → Option CStr
  | [] => none
  | opt :: rest =>
    match arg_G rest with
    | some optarg => some optarg
    | none =>
      match opt with
      | .G optarg => some optarg
      | _ => none

/-- What the parsing loop computes from a start state `o`, read off the options. -/
def parsed (o : Opts) (opts : List GetoptRet) (o2 : Opts) : Prop :=
  o2.flags.testBit 28 = (o.flags.testBit 28 || decide (GetoptRet.U ∈ opts)) ∧
    o2.uid_map = (match arg_M opts with | some s => some s | none => o.uid_map) ∧
    o2.gid_map = (match arg_G opts with | some s => some s | none => o.gid_map) ∧
    (o2.map_zero != 0) = (o.map_zero != 0 || decide (GetoptRet.z ∈ opts)) ∧
    (o2.verbose != 0) = (o.verbose != 0 || decide (GetoptRet.v ∈ opts))

/-- The mapping write succeeds: the string is within reach of the `int` index, `open`
does not return `-1` and `write` returns the length of the string. -/
def write_ok (env : Env) (map_file mapping : CStr) : Prop :=
  mapping.length ≤ INT_MAX ∧ env.open_ret map_file ≠ -1 ∧
    env.write_ret (.map_file map_file) (mapping.map comma_to_newline) mapping.length =
      Int.ofNat mapping.length

/-- The mapping write fails: `open` returns `-1`, or `write` returns a count other
than the length of the string. -/
def write_fails (env : Env) (map_file mapping : CStr) : Prop :=
  env.open_ret map_file = -1 ∨
    env.write_ret (.map_file map_file) (mapping.map comma_to_newline) mapping.length ≠
      Int.ofNat mapping.length

/-- Whether the parent's write end of the pipe is closed when its run is over: the
parent called `close` on it (line 244), or the parent process terminated, which
closes every descriptor it holds. -/
def write_end_closed (parent : Run) : Bool :=
  decide (Event.close Fd.pipe_wr ∈ parent.1) ||
    match parent.2 with
    | .exit _ => true
    | _ => false

/-- The result of the child's `read` on the pipe (line 127) given the run of the
parent. Nothing is ever written to the pipe and the child has closed its own copy of
the write end (line 123), so the `read` returns 0, end of file, as soon as the
parent's write end is closed; `none` means that it stays blocked. -/
def child_read (parent : Run) : Option Int :=
  if write_end_closed parent then some 0 else none

/-- The run of the child next to a run of the parent: `childFunc` with the result of
its `read`, or `none` when the `read` never returns. -/
def child_run (parent : Run) (args : child_args) (execvp_ret : Option Int) : Option Run :=
  match child_read parent with
  | some r => some (childFunc args r execvp_ret)
  | none => none

/-- A sample environment: every call succeeds, the child has pid 4242 and exits
with code 3, the caller has uid and gid 1000. -/
def env0 : Env := ⟨0, 4242, 1000, 1000, fun _ => 3, fun _ _ n => n, 4242, .exited 3⟩

/-- A sample environment in which `pipe`, `clone` and `open` succeed and every `write`
returns `-1`. -/
def env_write_fails : Env := ⟨0, 4242, 1000, 1000, fun _ => 3, fun _ _ _ => -1, 4242, .exited 0⟩

/-- A sample environment in which every call succeeds and the child is killed by
signal 9. -/
def env_killed : Env := ⟨0, 4242, 1000, 1000, fun _ => 3, fun _ _ n => n, 4242, .signaled 9⟩

end Launcher

/-! `clone.c` -/

namespace CloneLauncher

open Launcher

def STACK_SIZE : Nat := 1024 * 1024

/-- The macro `CLONE_FLAGS` of clone.c, line 10. -/
def CLONE_FLAGS : Nat := CLONE_NEWUTS ||| CLONE_NEWPID ||| CLONE_NEWNS ||| SIGCHLD

/-- The function `main` of clone.c. `malloc_ok` tells whether `malloc` returned a
non-null pointer, `clone_ret` is the result of `clone`, and `status` is what
`waitpid` stores. -/
def main (malloc_ok : Bool) (clone_ret : Int) (status : WaitStatus) : Run :=
  if !malloc_ok then ([.malloc STACK_SIZE, .perror "malloc stack"], .exit EXIT_FAILURE)
  else if clone_ret = -1 then
    ([.malloc STACK_SIZE, .clone CLONE_FLAGS, .perror "failed clone"], .exit EXIT_SUCCESS)
  else
    ([.malloc STACK_SIZE, .clone CLONE_FLAGS, .printf_pid clone_ret, .waitpid (-1)],
      .exit (if WIFEXITED status then WEXITSTATUS status else EXIT_FAILURE))

end CloneLauncher

namespace Launcher

/-! The comma loop -/

theorem comma_loop_length (fuel j : Nat) (mapping : CStr) :
    (comma_loop fuel j mapping).length = mapping.length := by
  induction fuel generalizing j mapping with
  | zero => rfl
  | succ fuel ih =>
    simp only [comma_loop]
    rw [ih]
    split <;> simp

theorem comma_loop_getElem? (fuel j : Nat) (mapping : CStr) (k : Nat) :
    (comma_loop fuel j mapping)[k]? =
      if j ≤ k ∧ k < j + fuel then mapping[k]?.map comma_to_newline else mapping[k]? := by
  induction fuel generalizing j mapping with
  | zero =>
    have : ¬ (j ≤ k ∧ k < j + 0) := by omega
    rw [if_neg this]
    rfl
  | succ fuel ih =>
    simp only [comma_loop]
    rw [ih]
    by_cases hk : k = j
    · subst hk
      have h1 : ¬ (k + 1 ≤ k ∧ k < k + 1 + fuel) := by omega
      have h2 : k ≤ k ∧ k < k + (fuel + 1) := by omega
      rw [if_neg h1, if_pos h2]
      by_cases hc : mapping.get? k = some ','
      · rw [if_pos hc]
        rw [List.get?_eq_getElem?] at hc
        have hlt : k < mapping.length := by
          by_contra hge
          rw [List.getElem?_eq_none (by omega)] at hc
          cases hc
        simp [hc, comma_to_newline, List.getElem?_set, hlt]
      · rw [if_neg hc]
        rw [List.get?_eq_getElem?] at hc
        cases hm : mapping[k]? with
        | none => simp
        | some c =>
          have : c ≠ ',' := by
            intro hcc
            apply hc
            rw [hm, hcc]
          simp [comma_to_newline, this]
    · have hiff : (j + 1 ≤ k ∧ k < j + 1 + fuel) ↔ (j ≤ k ∧ k < j + (fuel + 1)) := by omega
      have hset : (if mapping.get? j = some ',' then mapping.set j '\n' else mapping)[k]? =
          mapping[k]? := by
        split
        · rw [List.getElem?_set]
          simp [Ne.symm hk]
        · rfl
      simp only [hset, hiff]

/-- The comma loop of `update_map`, run over the whole string, replaces every comma
by a newline and leaves every other character as it is. -/
theorem comma_loop_eq_map (mapping : CStr) :
    comma_loop mapping.length 0 mapping = mapping.map comma_to_newline := by
  apply List.ext_getElem?
  intro k
  rw [comma_loop_getElem?]
  by_cases hk : k < mapping.length
  · have : 0 ≤ k ∧ k < 0 + mapping.length := by omega
    rw [if_pos this, List.getElem?_map]
  · have : ¬ (0 ≤ k ∧ k < 0 + mapping.length) := by omega
    rw [if_neg this]
    simp [List.getElem?_eq_none (show mapping.length ≤ k by omega)]

theorem map_comma_intersperse (groups : List CStr)
    (hgroups : ∀ g ∈ groups, ',' ∉ g) :
    ((groups.intersperse [',']).flatten).map comma_to_newline =
      (groups.intersperse ['\n']).flatten := by
  induction groups with
  | nil => rfl
  | cons g rest ih =>
    have hg : g.map comma_to_newline = g := by
      have hmem : ∀ c ∈ g, comma_to_newline c = id c := by
        intro c hc
        have : c ≠ ',' := fun h => hgroups g (List.mem_cons_self _ _) (h ▸ hc)
        simp [comma_to_newline, this]
      rw [List.map_congr_left hmem, List.map_id]
    have hrest := ih (fun x hx => hgroups x (List.mem_cons_of_mem _ hx))
    cases rest with
    | nil => simpa using hg
    | cons g2 rest2 =>
      simp only [List.intersperse_cons_cons, List.flatten_cons, List.map_append, hg, hrest]
      rfl

theorem map_comma_intercalate (groups : List CStr)
    (hgroups : ∀ g ∈ groups, ',' ∉ g) :
    ([','].intercalate groups).map comma_to_newline = ['\n'].intercalate groups := by
  simpa [List.intercalate] using map_comma_intersperse groups hgroups

/-- Claim C5. For a mapping string made of `N >= 1` comma-separated groups, none of
which contains a comma or a newline (in particular groups of three decimal
integers separated by blanks), and short enough for the `int` loop index, a run of
`update_map` in which `open` succeeds makes exactly one `write` call; its count is the
length of the input, its buffer has that length, is the input with every comma
replaced by a newline and every other character unchanged, and splits at newlines
into exactly the original groups in their original order, which are also the
groups the input splits into at commas. -/
theorem update_map_writes_records (env : Env) (groups : List CStr) (map_file : CStr)
    (hne : groups ≠ [])
    (hgroups : ∀ g ∈ groups, ',' ∉ g ∧ '\n' ∉ g)
    (hlen : ([','].intercalate groups).length ≤ INT_MAX)
    (hopen : env.open_ret map_file ≠ -1) :
    writes (update_map env ([','].intercalate groups) map_file).1 =
        [(Fd.map_file map_file, ['\n'].intercalate groups,
          ([','].intercalate groups).length)] ∧
      (['\n'].intercalate groups).length = ([','].intercalate groups).length ∧
      ['\n'].intercalate groups = ([','].intercalate groups).map comma_to_newline ∧
      (['\n'].intercalate groups).splitOn '\n' = groups ∧
      ([','].intercalate groups).splitOn ',' = groups := by
  have hmap := map_comma_intercalate groups (fun g hg => (hgroups g hg).1)
  have hbuf : comma_loop ([','].intercalate groups).length 0 ([','].intercalate groups) =
      ['\n'].intercalate groups := by
    rw [comma_loop_eq_map, hmap]
  refine ⟨?_, ?_, hmap.symm, ?_, ?_⟩
  · unfold update_map
    simp only [hbuf]
    rw [if_neg (by omega), if_neg hopen]
    split <;> rfl
  · rw [← hmap, List.length_map]
  · exact List.splitOn_intercalate _ '\n' (fun g hg => (hgroups g hg).2) hne
  · exact List.splitOn_intercalate _ ',' (fun g hg => (hgroups g hg).1) hne

/-! The zero-map text -/

theorem digitChar_ne_comma (n : Nat) : Nat.digitChar (n % 10) ≠ ',' := by
  have h : n % 10 < 10 := Nat.mod_lt _ (by decide)
  generalize n % 10 = m at h
  interval_cases m <;> decide

theorem toDigitsCore_no_comma (fuel n : Nat) (ds : List Char) (hds : ',' ∉ ds) :
    ',' ∉ Nat.toDigitsCore 10 fuel n ds := by
  induction fuel generalizing n ds with
  | zero => simpa [Nat.toDigitsCore] using hds
  | succ fuel ih =>
    have hcons : ',' ∉ Nat.digitChar (n % 10) :: ds := by
      intro h
      rcases List.mem_cons.mp h with h | h
      · exact digitChar_ne_comma _ h.symm
      · exact hds h
    simp only [Nat.toDigitsCore]
    split
    · exact hcons
    · exact ih _ _ hcons

theorem fmt_ld_no_comma (v : Int) : ',' ∉ fmt_ld v := by
  unfold fmt_ld
  split
  · intro h
    rcases List.mem_cons.mp h with h | h
    · exact absurd h (by decide)
    · exact toDigitsCore_no_comma _ _ [] (by simp) h
  · exact toDigitsCore_no_comma _ _ [] (by simp)

theorem toDigits_length_le (n : Nat) (hn : n < 10 ^ 19) : (Nat.toDigits 10 n).length ≤ 19 :=
  Nat.toDigitsCore_length 10 (by decide) (n + 1) n 19 hn (by decide)

theorem fmt_ld_length_le (v : Int) (hlo : -2 ^ 63 ≤ v) (hhi : v < 2 ^ 63) :
    (fmt_ld v).length ≤ 20 := by
  unfold fmt_ld
  split
  · have : (Nat.toDigits 10 v.natAbs).length ≤ 19 := toDigits_length_le _ (by omega)
    simp only [List.length_cons]
    omega
  · have : (Nat.toDigits 10 v.toNat).length ≤ 19 := toDigits_length_le _ (by omega)
    omega

theorem zero_text_length_le (id : Int) (hlo : -2 ^ 63 ≤ id) (hhi : id < 2 ^ 63) :
    ("0 ".toList ++ fmt_ld id ++ " 1".toList).length ≤ 24 := by
  have := fmt_ld_length_le id hlo hhi
  have h1 : "0 ".toList.length = 2 := by decide
  have h2 : " 1".toList.length = 2 := by decide
  simp only [List.length_append, h1, h2]
  omega

theorem zero_map_eq (id : Int) (hlo : -2 ^ 63 ≤ id) (hhi : id < 2 ^ 63) :
    zero_map id = "0 ".toList ++ fmt_ld id ++ " 1".toList := by
  have hlen := zero_text_length_le id hlo hhi
  unfold zero_map snprintf
  apply List.take_of_length_le
  have : MAP_BUF_SIZE - 1 = 99 := by decide
  omega

theorem zero_map_no_comma (id : Int) (hlo : -2 ^ 63 ≤ id) (hhi : id < 2 ^ 63) :
    ',' ∉ zero_map id := by
  rw [zero_map_eq id hlo hhi]
  intro h
  rcases List.mem_append.mp h with h | h
  · rcases List.mem_append.mp h with h | h
    · exact absurd h (by decide)
    · exact fmt_ld_no_comma id h
  · exact absurd h (by decide)

/-- Claim C10. For every value `id` of a 64-bit `long` (in particular every 32-bit
uid or gid), the text `"0 <id> 1"` has at most 24 characters, which with the
terminating NUL is less than `MAP_BUF_SIZE = 100`; so `snprintf` stores it whole:
the string handed to `update_map` is `"0 "`, the decimal numeral of `id`, `" 1"`, and it
holds no comma. -/
theorem zero_map_not_truncated (id : Int) (hlo : -2 ^ 63 ≤ id) (hhi : id < 2 ^ 63) :
    ("0 ".toList ++ fmt_ld id ++ " 1".toList).length ≤ 24 ∧
      24 + 1 < MAP_BUF_SIZE ∧
      zero_map id = "0 ".toList ++ fmt_ld id ++ " 1".toList ∧
      ',' ∉ zero_map id :=
  ⟨zero_text_length_le id hlo hhi, by decide, zero_map_eq id hlo hhi,
    zero_map_no_comma id hlo hhi⟩

theorem zero_map_not_truncated_witness :
    zero_map 4294967295 = "0 4294967295 1".toList ∧ ',' ∉ zero_map 4294967295 :=
  ⟨(zero_map_not_truncated 4294967295 (by decide) (by decide)).2.2.1.trans (by decide),
    (zero_map_not_truncated 4294967295 (by decide) (by decide)).2.2.2⟩

/-! Option parsing -/

theorem parse_loop_parsed (opts : List GetoptRet) (o : Opts)
    (hknown : GetoptRet.unknown ∉ opts) :
    ∃ o2, parse_loop o opts = some o2 ∧ parsed o opts o2 := by
  induction opts generalizing o with
  | nil => exact ⟨o, rfl, by simp [parsed, arg_M, arg_G]⟩
  | cons opt rest ih =>
    have hrest : GetoptRet.unknown ∉ rest := fun h => hknown (List.mem_cons_of_mem _ h)
    have hopt : opt ≠ GetoptRet.unknown := fun h => hknown (h ▸ List.mem_cons_self _ _)
    cases opt with
    | unknown => exact absurd rfl hopt
    | i =>
      obtain ⟨o2, h2, hf, hu, hg, hz, hv⟩ := ih ⟨o.flags ||| CLONE_NEWIPC, o.verbose,
        o.uid_map, o.gid_map, o.map_zero⟩ hrest
      refine ⟨o2, by simpa [parse_loop, parse_step] using h2, ?_, ?_, ?_, ?_, ?_⟩
      · have hc : CLONE_NEWIPC.testBit 28 = false := by decide
        simpa [Nat.testBit_or, hc] using hf
      · simp only [arg_M]; rw [hu]; cases arg_M rest <;> rfl
      · simp only [arg_G]; rw [hg]; cases arg_G rest <;> rfl
      · simpa using hz
      · simpa using hv
    | m =>
      obtain ⟨o2, h2, hf, hu, hg, hz, hv⟩ := ih ⟨o.flags ||| CLONE_NEWNS, o.verbose,
        o.uid_map, o.gid_map, o.map_zero⟩ hrest
      refine ⟨o2, by simpa [parse_loop, parse_step] using h2, ?_, ?_, ?_, ?_, ?_⟩
      · have hc : CLONE_NEWNS.testBit 28 = false := by decide
        simpa [Nat.testBit_or, hc] using hf
      · simp only [arg_M]; rw [hu]; cases arg_M rest <;> rfl
      · simp only [arg_G]; rw [hg]; cases arg_G rest <;> rfl
      · simpa using hz
      · simpa using hv
    | n =>
      obtain ⟨o2, h2, hf, hu, hg, hz, hv⟩ := ih ⟨o.flags ||| CLONE_NEWNET, o.verbose,
        o.uid_map, o.gid_map, o.map_zero⟩ hrest
      refine ⟨o2, by simpa [parse_loop, parse_step] using h2, ?_, ?_, ?_, ?_, ?_⟩
      · have hc : CLONE_NEWNET.testBit 28 = false := by decide
        simpa [Nat.testBit_or, hc] using hf
      · simp only [arg_M]; rw [hu]; cases arg_M rest <;> rfl
      · simp only [arg_G]; rw [hg]; cases arg_G rest <;> rfl
      · simpa using hz
      · simpa using hv
    | p =>
      obtain ⟨o2, h2, hf, hu, hg, hz, hv⟩ := ih ⟨o.flags ||| CLONE_NEWPID, o.verbose,
        o.uid_map, o.gid_map, o.map_zero⟩ hrest
      refine ⟨o2, by simpa [parse_loop, parse_step] using h2, ?_, ?_, ?_, ?_, ?_⟩
      · have hc : CLONE_NEWPID.testBit 28 = false := by decide
        simpa [Nat.testBit_or, hc] using hf
      · simp only [arg_M]; rw [hu]; cases arg_M rest <;> rfl
      · simp only [arg_G]; rw [hg]; cases arg_G rest <;> rfl
      · simpa using hz
      · simpa using hv
    | u =>
      obtain ⟨o2, h2, hf, hu, hg, hz, hv⟩ := ih ⟨o.flags ||| CLONE_NEWUTS, o.verbose,
        o.uid_map, o.gid_map, o.map_zero⟩ hrest
      refine ⟨o2, by simpa [parse_loop, parse_step] using h2, ?_, ?_, ?_, ?_, ?_⟩
      · have hc : CLONE_NEWUTS.testBit 28 = false := by decide
        simpa [Nat.testBit_or, hc] using hf
      · simp only [arg_M]; rw [hu]; cases arg_M rest <;> rfl
      · simp only [arg_G]; rw [hg]; cases arg_G rest <;> rfl
      · simpa using hz
      · simpa using hv
    | U =>
      obtain ⟨o2, h2, hf, hu, hg, hz, hv⟩ := ih ⟨o.flags ||| CLONE_NEWUSER, o.verbose,
        o.uid_map, o.gid_map, o.map_zero⟩ hrest
      refine ⟨o2, by simpa [parse_loop, parse_step] using h2, ?_, ?_, ?_, ?_, ?_⟩
      · have hc : CLONE_NEWUSER.testBit 28 = true := by decide
        simpa [Nat.testBit_or, hc] using hf
      · simp only [arg_M]; rw [hu]; cases arg_M rest <;> rfl
      · simp only [arg_G]; rw [hg]; cases arg_G rest <;> rfl
      · simpa using hz
      · simpa using hv
    | v =>
      obtain ⟨o2, h2, hf, hu, hg, hz, hv⟩ := ih ⟨o.flags, 1,
        o.uid_map, o.gid_map, o.map_zero⟩ hrest
      refine ⟨o2, by simpa [parse_loop, parse_step] using h2, ?_, ?_, ?_, ?_, ?_⟩
      · simpa using hf
      · simp only [arg_M]; rw [hu]; cases arg_M rest <;> rfl
      · simp only [arg_G]; rw [hg]; cases arg_G rest <;> rfl
      · simpa using hz
      · simpa using hv
    | z =>
      obtain ⟨o2, h2, hf, hu, hg, hz, hv⟩ := ih ⟨o.flags, o.verbose,
        o.uid_map, o.gid_map, 1⟩ hrest
      refine ⟨o2, by simpa [parse_loop, parse_step] using h2, ?_, ?_, ?_, ?_, ?_⟩
      · simpa using hf
      · simp only [arg_M]; rw [hu]; cases arg_M rest <;> rfl
      · simp only [arg_G]; rw [hg]; cases arg_G rest <;> rfl
      · simpa using hz
      · simpa using hv
    | M optarg =>
      obtain ⟨o2, h2, hf, hu, hg, hz, hv⟩ := ih ⟨o.flags, o.verbose,
        some optarg, o.gid_map, o.map_zero⟩ hrest
      refine ⟨o2, by simpa [parse_loop, parse_step] using h2, ?_, ?_, ?_, ?_, ?_⟩
      · simpa using hf
      · simp only [arg_M]; rw [hu]; cases arg_M rest <;> rfl
      · simp only [arg_G]; rw [hg]; cases arg_G rest <;> rfl
      · simpa using hz
      · simpa using hv
    | G optarg =>
      obtain ⟨o2, h2, hf, hu, hg, hz, hv⟩ := ih ⟨o.flags, o.verbose,
        o.uid_map, some optarg, o.map_zero⟩ hrest
      refine ⟨o2, by simpa [parse_loop, parse_step] using h2, ?_, ?_, ?_, ?_, ?_⟩
      · simpa using hf
      · simp only [arg_M]; rw [hu]; cases arg_M rest <;> rfl
      · simp only [arg_G]; rw [hg]; cases arg_G rest <;> rfl
      · simpa using hz
      · simpa using hv

theorem arg_M_isSome_iff (opts : List GetoptRet) :
    (arg_M opts).isSome = true ↔ ∃ s, GetoptRet.M s ∈ opts := by
  induction opts with
  | nil => simp [arg_M]
  | cons opt rest ih =>
    simp only [arg_M, List.mem_cons]
    cases hrest : arg_M rest with
    | some s =>
      rw [hrest] at ih
      obtain ⟨t, ht⟩ := ih.mp rfl
      simp only [Option.isSome_some, true_iff]
      exact ⟨t, Or.inr ht⟩
    | none =>
      rw [hrest] at ih
      have hno : ∀ s, GetoptRet.M s ∉ rest := fun s hs => by
        have := ih.mpr ⟨s, hs⟩
        simp at this
      cases opt <;> simp [hno]

theorem arg_G_isSome_iff (opts : List GetoptRet) :
    (arg_G opts).isSome = true ↔ ∃ s, GetoptRet.G s ∈ opts := by
  induction opts with
  | nil => simp [arg_G]
  | cons opt rest ih =>
    simp only [arg_G, List.mem_cons]
    cases hrest : arg_G rest with
    | some s =>
      rw [hrest] at ih
      obtain ⟨t, ht⟩ := ih.mp rfl
      simp only [Option.isSome_some, true_iff]
      exact ⟨t, Or.inr ht⟩
    | none =>
      rw [hrest] at ih
      have hno : ∀ s, GetoptRet.G s ∉ rest := fun s hs => by
        have := ih.mpr ⟨s, hs⟩
        simp at this
      cases opt <;> simp [hno]

theorem and_newuser_eq_zero (flags : Nat) :
    ((flags &&& CLONE_NEWUSER) == 0) = !flags.testBit 28 := by
  have h : CLONE_NEWUSER = 2 ^ 28 := by decide
  rw [h, Nat.and_two_pow]
  cases flags.testBit 28 <;> simp

/-- The test of lines 186-188 on the parsed options, in terms of the options given. -/
theorem conflict_parsed (opts : List GetoptRet) (o : Opts) (h : parsed Opts.init opts o) :
    conflict o = true ↔
      (((∃ s, GetoptRet.M s ∈ opts) ∨ (∃ s, GetoptRet.G s ∈ opts) ∨ GetoptRet.z ∈ opts) ∧
          GetoptRet.U ∉ opts) ∨
        (GetoptRet.z ∈ opts ∧
          ((∃ s, GetoptRet.M s ∈ opts) ∨ (∃ s, GetoptRet.G s ∈ opts))) := by
  obtain ⟨hf, hu, hg, hz, -⟩ := h
  have hu2 : o.uid_map.isSome = (arg_M opts).isSome := by
    rw [hu]; cases arg_M opts <;> rfl
  have hg2 : o.gid_map.isSome = (arg_G opts).isSome := by
    rw [hg]; cases arg_G opts <;> rfl
  have hf2 : o.flags.testBit 28 = decide (GetoptRet.U ∈ opts) := by
    rw [hf]; simp [Opts.init]
  have hz2 : (o.map_zero != 0) = decide (GetoptRet.z ∈ opts) := by
    rw [hz]; simp [Opts.init]
  unfold conflict
  rw [and_newuser_eq_zero, hu2, hg2, hf2, hz2, ← arg_M_isSome_iff, ← arg_G_isSome_iff]
  simp only [Bool.or_eq_true, Bool.and_eq_true, Bool.not_eq_true', decide_eq_true_eq,
    decide_eq_false_iff_not, or_assoc]

/-! Shape of the parent's trace -/

theorem update_map_no_usage (env : Env) (mapping map_file : CStr) :
    Event.usage ∉ (update_map env mapping map_file).1 := by
  unfold update_map
  simp only
  split_ifs <;> simp

theorem spawn_head (env : Env) (o : Opts) :
    Event.usage ∉ (spawn env o).1 ∧
      ∃ rest, (spawn env o).1 = Event.pipe :: rest ∧
        (env.pipe_ret ≠ -1 → ∃ rest2, rest = Event.clone (o.flags ||| SIGCHLD) :: rest2) := by
  have hu : Event.usage ∉ (uid_stage env o).1 := by
    unfold uid_stage
    split
    · exact update_map_no_usage _ _ _
    · split
      · exact update_map_no_usage _ _ _
      · simp
  have hg : Event.usage ∉ (gid_stage env o).1 := by
    unfold gid_stage
    split
    · exact update_map_no_usage _ _ _
    · split
      · exact update_map_no_usage _ _ _
      · simp
  have hfin : Event.usage ∉ (finish env o).1 := by
    unfold finish
    split_ifs <;> simp
  unfold spawn
  by_cases hp : env.pipe_ret = -1
  · simp [hp]
  by_cases hc : env.clone_ret = -1
  · simp [hp, hc]
  rw [if_neg hp, if_neg hc]
  simp only
  split
  · next t1 out h1 =>
    rw [h1] at hu
    refine ⟨?_, _, rfl, fun _ => ⟨_, rfl⟩⟩
    have : Event.usage ∉ t1 := hu
    split_ifs <;> simp [this]
  · next t1 h1 =>
    rw [h1] at hu
    have hu1 : Event.usage ∉ t1 := hu
    split
    · next t2 out h2 =>
      rw [h2] at hg
      have hg1 : Event.usage ∉ t2 := hg
      refine ⟨?_, _, rfl, fun _ => ⟨_, rfl⟩⟩
      split_ifs <;> simp [hu1, hg1]
    · next t2 h2 =>
      rw [h2] at hg
      have hg1 : Event.usage ∉ t2 := hg
      refine ⟨?_, _, rfl, fun _ => ⟨_, rfl⟩⟩
      split_ifs <;> simp [hu1, hg1, hfin]

/-- Claim C1. When `getopt` reports only known options, `main` rejects the
configuration (its whole run is the call of `usage`, which exits with `EXIT_FAILURE`,
so neither `pipe` nor `clone` is reached) if and only if (`-M`, `-G` or `-z` is present
and `-U` is absent) or (`-z` is present and `-M` or `-G` is present). Every other
option set does not call `usage` and proceeds to spawning: the run starts with
`pipe`, followed by `clone` when `pipe` succeeds. -/
theorem conflict_rejected_iff (env : Env) (opts : List GetoptRet)
    (hknown : GetoptRet.unknown ∉ opts) :
    (main env opts = ([Event.usage], Outcome.exit EXIT_FAILURE) ↔
        (((∃ s, GetoptRet.M s ∈ opts) ∨ (∃ s, GetoptRet.G s ∈ opts) ∨ GetoptRet.z ∈ opts) ∧
            GetoptRet.U ∉ opts) ∨
          (GetoptRet.z ∈ opts ∧
            ((∃ s, GetoptRet.M s ∈ opts) ∨ (∃ s, GetoptRet.G s ∈ opts)))) ∧
      (main env opts ≠ ([Event.usage], Outcome.exit EXIT_FAILURE) →
        Event.usage ∉ (main env opts).1 ∧
          ∃ rest, (main env opts).1 = Event.pipe :: rest ∧
            (env.pipe_ret ≠ -1 → ∃ flags rest2, rest = Event.clone flags :: rest2)) := by
  obtain ⟨o, hparse, hspec⟩ := parse_loop_parsed opts Opts.init hknown
  have hmain : main env opts =
      if conflict o then ([Event.usage], Outcome.exit EXIT_FAILURE) else spawn env o := by
    simp [main, hparse]
  have hconf := conflict_parsed opts o hspec
  obtain ⟨hnu, rest, hrest, hclone⟩ := spawn_head env o
  by_cases hc : conflict o = true
  · have hrun : main env opts = ([Event.usage], Outcome.exit EXIT_FAILURE) := by
      rw [hmain, if_pos hc]
    exact ⟨⟨fun _ => hconf.mp hc, fun _ => hrun⟩, fun h => absurd hrun h⟩
  · have hrun : main env opts = spawn env o := by
      rw [hmain, if_neg hc]
    have hne : main env opts ≠ ([Event.usage], Outcome.exit EXIT_FAILURE) := by
      intro h
      rw [hrun] at h
      rw [h] at hrest
      simp at hrest
    refine ⟨⟨fun h => absurd h hne, fun h => absurd (hconf.mpr h) hc⟩, fun _ => ?_⟩
    rw [hrun]
    exact ⟨hnu, rest, hrest, fun hp => ⟨_, hclone hp⟩⟩

theorem conflict_rejected_iff_witness :
    main env0 [GetoptRet.p, GetoptRet.M "0 0 1".toList] =
        ([Event.usage], Outcome.exit EXIT_FAILURE) ∧
      main env0 [GetoptRet.U, GetoptRet.z] ≠ ([Event.usage], Outcome.exit EXIT_FAILURE) :=
  ⟨(conflict_rejected_iff env0 [GetoptRet.p, GetoptRet.M "0 0 1".toList] (by decide)).1.mpr
      (Or.inl ⟨Or.inl ⟨_, List.mem_cons_of_mem _ (List.mem_cons_self _ _)⟩, by decide⟩),
    fun h => absurd ((conflict_rejected_iff env0 [GetoptRet.U, GetoptRet.z] (by decide)).1.mp h)
      (by simp)⟩

theorem update_map_writes_records_witness :
    writes (update_map env0
        ([','].intercalate ["0 1000 1".toList, "1 100000 65536".toList])
        "/proc/4242/uid_map".toList).1 =
      [(Fd.map_file "/proc/4242/uid_map".toList, "0 1000 1\n1 100000 65536".toList, 23)] := by
  have h := update_map_writes_records env0 ["0 1000 1".toList, "1 100000 65536".toList]
    "/proc/4242/uid_map".toList (by decide) (by decide) (by decide) (by decide)
  exact h.1

/-! The mapping stages -/

theorem to_size_t_ofNat (n : Nat) (hn : n ≤ INT_MAX) : to_size_t (Int.ofNat n) = n := by
  unfold to_size_t
  unfold INT_MAX at hn
  have h : (Int.ofNat n) % 2 ^ 64 = Int.ofNat n := by
    apply Int.emod_eq_of_lt
    · exact Int.ofNat_nonneg n
    · have : (n : Int) < 2 ^ 64 := by
        have : (n : Int) ≤ 2147483647 := by exact_mod_cast hn
        omega
      exact this
  rw [h]
  rfl

theorem to_size_t_ne (r : Int) (n : Nat) (hn : n ≤ INT_MAX) (hlo : -2 ^ 63 ≤ r)
    (hhi : r < 2 ^ 63) (hne : r ≠ Int.ofNat n) : to_size_t r ≠ n := by
  unfold to_size_t
  unfold INT_MAX at hn
  have hn2 : (n : Int) ≤ 2147483647 := by exact_mod_cast hn
  have hne2 : r ≠ (n : Int) := hne
  omega

/-- The function `update_map` on a string within reach of the `int` index. -/
theorem update_map_eq (env : Env) (mapping map_file : CStr) (hlen : mapping.length ≤ INT_MAX) :
    update_map env mapping map_file =
      if env.open_ret map_file = -1 then
        ([.open_rdwr map_file, .stderr "ERROR: open"], some (.exit EXIT_FAILURE))
      else if to_size_t (env.write_ret (.map_file map_file) (mapping.map comma_to_newline)
          mapping.length) ≠ mapping.length then
        ([.open_rdwr map_file,
          .write (.map_file map_file) (mapping.map comma_to_newline) mapping.length,
          .stderr "ERROR: write"], some (.exit EXIT_FAILURE))
      else (map_events map_file (some mapping), none) := by
  unfold update_map
  simp only [comma_loop_eq_map, map_events]
  rw [if_neg (by omega)]

theorem update_map_ok (env : Env) (mapping map_file : CStr)
    (h : write_ok env map_file mapping) :
    update_map env mapping map_file = (map_events map_file (some mapping), none) := by
  obtain ⟨hlen, hopen, hwrite⟩ := h
  rw [update_map_eq env mapping map_file hlen, if_neg hopen, hwrite,
    to_size_t_ofNat _ hlen]
  simp

theorem uid_stage_eq (env : Env) (o : Opts) :
    uid_stage env o =
      match uid_text env o with
      | some m => update_map env m (map_path env.clone_ret "uid_map")
      | none => ([], none) := by
  unfold uid_stage uid_text
  split
  · rfl
  · cases o.uid_map <;> rfl

theorem gid_stage_eq (env : Env) (o : Opts) :
    gid_stage env o =
      match gid_text env o with
      | some m => update_map env m (map_path env.clone_ret "gid_map")
      | none => ([], none) := by
  unfold gid_stage gid_text
  split
  · rfl
  · cases o.gid_map <;> rfl

theorem uid_stage_ok (env : Env) (o : Opts)
    (h : ∀ m, uid_text env o = some m → write_ok env (map_path env.clone_ret "uid_map") m) :
    uid_stage env o = (map_events (map_path env.clone_ret "uid_map") (uid_text env o), none) := by
  rw [uid_stage_eq]
  cases ht : uid_text env o with
  | none => rfl
  | some m => exact update_map_ok env m _ (h m ht)

theorem gid_stage_ok (env : Env) (o : Opts)
    (h : ∀ m, gid_text env o = some m → write_ok env (map_path env.clone_ret "gid_map") m) :
    gid_stage env o = (map_events (map_path env.clone_ret "gid_map") (gid_text env o), none) := by
  rw [gid_stage_eq]
  cases ht : gid_text env o with
  | none => rfl
  | some m => exact update_map_ok env m _ (h m ht)

theorem main_accepted (env : Env) (opts : List GetoptRet) (o : Opts)
    (hparse : parse_loop Opts.init opts = some o) (hacc : conflict o = false) :
    main env opts = spawn env o := by
  simp [main, hparse, hacc]

theorem parse_loop_known (opts : List GetoptRet) (o o2 : Opts)
    (h : parse_loop o opts = some o2) : GetoptRet.unknown ∉ opts := by
  induction opts generalizing o with
  | nil => simp
  | cons opt rest ih =>
    cases hstep : parse_step o opt with
    | none => simp [parse_loop, hstep] at h
    | some o1 =>
      simp only [parse_loop, hstep] at h
      have hrest := ih o1 h
      have hopt : opt ≠ GetoptRet.unknown := by
        intro he
        subst he
        simp [parse_step] at hstep
      intro hmem
      rcases List.mem_cons.mp hmem with hm | hm
      · exact hopt hm.symm
      · exact hrest hm

theorem parse_loop_spec (opts : List GetoptRet) (o : Opts)
    (h : parse_loop Opts.init opts = some o) : parsed Opts.init opts o := by
  obtain ⟨o2, h2, hp⟩ := parse_loop_parsed opts Opts.init (parse_loop_known opts _ _ h)
  rw [h] at h2
  cases h2
  exact hp

theorem uid_text_isSome_iff (env : Env) (opts : List GetoptRet) (o : Opts)
    (h : parse_loop Opts.init opts = some o) :
    (uid_text env o).isSome = true ↔ (∃ s, GetoptRet.M s ∈ opts) ∨ GetoptRet.z ∈ opts := by
  obtain ⟨-, hu, -, hz, -⟩ := parse_loop_spec opts o h
  have hz2 : (o.map_zero != 0) = decide (GetoptRet.z ∈ opts) := by
    rw [hz]; simp [Opts.init]
  have hu2 : o.uid_map.isSome = (arg_M opts).isSome := by
    rw [hu]; cases arg_M opts <;> rfl
  rw [← arg_M_isSome_iff, ← hu2]
  unfold uid_text
  rw [hz2]
  by_cases hzm : GetoptRet.z ∈ opts <;> simp [hzm]

theorem gid_text_isSome_iff (env : Env) (opts : List GetoptRet) (o : Opts)
    (h : parse_loop Opts.init opts = some o) :
    (gid_text env o).isSome = true ↔ (∃ s, GetoptRet.G s ∈ opts) ∨ GetoptRet.z ∈ opts := by
  obtain ⟨-, -, hg, hz, -⟩ := parse_loop_spec opts o h
  have hz2 : (o.map_zero != 0) = decide (GetoptRet.z ∈ opts) := by
    rw [hz]; simp [Opts.init]
  have hg2 : o.gid_map.isSome = (arg_G opts).isSome := by
    rw [hg]; cases arg_G opts <;> rfl
  rw [← arg_G_isSome_iff, ← hg2]
  unfold gid_text
  rw [hz2]
  by_cases hzm : GetoptRet.z ∈ opts <;> simp [hzm]

/-- Claim C2. For an accepted configuration in which `pipe`, `clone` and the mapping
writes succeed, the parent's calls are, in this order: `pipe`, `clone`, the verbose
message if asked for, the calls of one UID-map update (open, one write, close of the
map file), present exactly when `-M` or `-z` was given, the calls of one GID-map
update, present exactly when `-G` or `-z` was given, one close of the write end of
the pipe, `waitpid` on the child, and what follows the wait. So the UID write
precedes the GID write, each happens at most once, both have returned before the
close, the close precedes the wait and no mapping write follows the close. -/
theorem parent_sequence (env : Env) (opts : List GetoptRet) (o : Opts)
    (hparse : parse_loop Opts.init opts = some o) (hacc : conflict o = false)
    (hpipe : env.pipe_ret ≠ -1) (hclone : env.clone_ret ≠ -1)
    (huid : ∀ m, uid_text env o = some m →
      write_ok env (map_path env.clone_ret "uid_map") m)
    (hgid : ∀ m, gid_text env o = some m →
      write_ok env (map_path env.clone_ret "gid_map") m) :
    (main env opts).1 =
        [Event.pipe, Event.clone (o.flags ||| SIGCHLD)] ++
          (if o.verbose != 0 then [Event.printf_pid env.clone_ret] else []) ++
          map_events (map_path env.clone_ret "uid_map") (uid_text env o) ++
          map_events (map_path env.clone_ret "gid_map") (gid_text env o) ++
          [Event.close Fd.pipe_wr, Event.waitpid env.clone_ret] ++
          (if env.waitpid_ret = -1 then [Event.perror "waitpid"]
            else if o.verbose != 0 then [Event.printf_terminating] else []) ∧
      ((uid_text env o).isSome = true ↔
        (∃ s, GetoptRet.M s ∈ opts) ∨ GetoptRet.z ∈ opts) ∧
      ((gid_text env o).isSome = true ↔
        (∃ s, GetoptRet.G s ∈ opts) ∨ GetoptRet.z ∈ opts) := by
  refine ⟨?_, uid_text_isSome_iff env opts o hparse, gid_text_isSome_iff env opts o hparse⟩
  rw [main_accepted env opts o hparse hacc]
  unfold spawn
  rw [if_neg hpipe, if_neg hclone, uid_stage_ok env o huid, gid_stage_ok env o hgid]
  simp only [finish]
  split_ifs <;> simp

theorem parent_sequence_witness :
    (main env0 [GetoptRet.U, GetoptRet.M "0 1000 1,1 100000 10".toList,
        GetoptRet.G "0 1000 1".toList]).1 =
      [Event.pipe, Event.clone (CLONE_NEWUSER ||| SIGCHLD),
        Event.open_rdwr "/proc/4242/uid_map".toList,
        Event.write (Fd.map_file "/proc/4242/uid_map".toList)
          "0 1000 1\n1 100000 10".toList 20,
        Event.close (Fd.map_file "/proc/4242/uid_map".toList),
        Event.open_rdwr "/proc/4242/gid_map".toList,
        Event.write (Fd.map_file "/proc/4242/gid_map".toList) "0 1000 1".toList 8,
        Event.close (Fd.map_file "/proc/4242/gid_map".toList),
        Event.close Fd.pipe_wr, Event.waitpid 4242] :=
  (parent_sequence env0
    [GetoptRet.U, GetoptRet.M "0 1000 1,1 100000 10".toList, GetoptRet.G "0 1000 1".toList]
    ⟨CLONE_NEWUSER, 0, some "0 1000 1,1 100000 10".toList, some "0 1000 1".toList, 0⟩
    (by decide) (by decide) (by decide) (by decide)
    (fun m hm => by
      have hm2 : m = "0 1000 1,1 100000 10".toList := by
        simpa [uid_text] using hm.symm
      subst hm2
      exact ⟨by decide, by decide, by decide⟩)
    (fun m hm => by
      have hm2 : m = "0 1000 1".toList := by
        simpa [gid_text] using hm.symm
      subst hm2
      exact ⟨by decide, by decide, by decide⟩)).1.trans (by decide)

/-! The zero-map option -/

theorem fmt_ld_ofNat (n : Nat) : fmt_ld (Int.ofNat n) = Nat.toDigits 10 n := by
  unfold fmt_ld
  have h : ¬ (Int.ofNat n < 0) := Int.not_lt.mpr (Int.ofNat_nonneg n)
  rw [if_neg h]
  rfl

theorem zero_map_ofNat (n : Nat) (hn : n < 2 ^ 32) :
    zero_map (Int.ofNat n) = "0 ".toList ++ Nat.toDigits 10 n ++ " 1".toList := by
  have hn2 : (n : Int) < 2 ^ 32 := by exact_mod_cast hn
  have hcast : Int.ofNat n = (n : Int) := rfl
  have hlo : -2 ^ 63 ≤ Int.ofNat n := by
    rw [hcast]
    omega
  have hhi : Int.ofNat n < 2 ^ 63 := by
    rw [hcast]
    omega
  rw [zero_map_eq _ hlo hhi, fmt_ld_ofNat]

/-- Claim C3. For every real uid and gid of the caller (32-bit values) and every
result of the system calls (so every child pid), the run of `main` with `-U -z` is
the same as its run with `-U -M "0 <uid> 1" -G "0 <gid> 1"`, the ids written in
decimal: the same calls in the same order with the same outcome, in particular the
same `open` calls on the map files and the same `write` calls (descriptor, bytes and
count). -/
theorem zero_map_option_equiv (env : Env) (hu : env.getuid < 2 ^ 32)
    (hg : env.getgid < 2 ^ 32) :
    main env [GetoptRet.U, GetoptRet.z] =
        main env [GetoptRet.U,
          GetoptRet.M ("0 ".toList ++ Nat.toDigits 10 env.getuid ++ " 1".toList),
          GetoptRet.G ("0 ".toList ++ Nat.toDigits 10 env.getgid ++ " 1".toList)] ∧
      opens (main env [GetoptRet.U, GetoptRet.z]).1 =
        opens (main env [GetoptRet.U,
          GetoptRet.M ("0 ".toList ++ Nat.toDigits 10 env.getuid ++ " 1".toList),
          GetoptRet.G ("0 ".toList ++ Nat.toDigits 10 env.getgid ++ " 1".toList)]).1 ∧
      writes (main env [GetoptRet.U, GetoptRet.z]).1 =
        writes (main env [GetoptRet.U,
          GetoptRet.M ("0 ".toList ++ Nat.toDigits 10 env.getuid ++ " 1".toList),
          GetoptRet.G ("0 ".toList ++ Nat.toDigits 10 env.getgid ++ " 1".toList)]).1 := by
  have hrun : main env [GetoptRet.U, GetoptRet.z] =
      main env [GetoptRet.U,
        GetoptRet.M ("0 ".toList ++ Nat.toDigits 10 env.getuid ++ " 1".toList),
        GetoptRet.G ("0 ".toList ++ Nat.toDigits 10 env.getgid ++ " 1".toList)] := by
    rw [main_accepted env [GetoptRet.U, GetoptRet.z] ⟨CLONE_NEWUSER, 0, none, none, 1⟩ rfl rfl,
      main_accepted env [GetoptRet.U,
        GetoptRet.M ("0 ".toList ++ Nat.toDigits 10 env.getuid ++ " 1".toList),
        GetoptRet.G ("0 ".toList ++ Nat.toDigits 10 env.getgid ++ " 1".toList)]
        ⟨CLONE_NEWUSER, 0,
        some ("0 ".toList ++ Nat.toDigits 10 env.getuid ++ " 1".toList),
        some ("0 ".toList ++ Nat.toDigits 10 env.getgid ++ " 1".toList), 0⟩ rfl
        (by simp [conflict, CLONE_NEWUSER])]
    unfold spawn uid_stage gid_stage
    rw [zero_map_ofNat _ hu, zero_map_ofNat _ hg]
    rfl
  exact ⟨hrun, by rw [hrun], by rw [hrun]⟩

theorem zero_map_option_equiv_witness :
    main env0 [GetoptRet.U, GetoptRet.z] =
      main env0 [GetoptRet.U, GetoptRet.M "0 1000 1".toList, GetoptRet.G "0 1000 1".toList] :=
  (zero_map_option_equiv env0 (by decide) (by decide)).1.trans (by decide)

/-! Fatal failures of the parent -/

/-- The run of the parent when the process ends inside the UID stage. -/
theorem spawn_uid_exit (env : Env) (o : Opts) (hpipe : env.pipe_ret ≠ -1)
    (hclone : env.clone_ret ≠ -1) (t1 : List Event) (out : Outcome)
    (h : uid_stage env o = (t1, some out)) :
    spawn env o = ([Event.pipe, Event.clone (o.flags ||| SIGCHLD)] ++
      (if o.verbose != 0 then [Event.printf_pid env.clone_ret] else []) ++ t1, out) := by
  unfold spawn
  rw [if_neg hpipe, if_neg hclone, h]

theorem spawn_gid_exit (env : Env) (o : Opts) (hpipe : env.pipe_ret ≠ -1)
    (hclone : env.clone_ret ≠ -1) (t1 t2 : List Event) (out : Outcome)
    (h1 : uid_stage env o = (t1, none)) (h2 : gid_stage env o = (t2, some out)) :
    spawn env o = ([Event.pipe, Event.clone (o.flags ||| SIGCHLD)] ++
      (if o.verbose != 0 then [Event.printf_pid env.clone_ret] else []) ++ t1 ++ t2, out) := by
  unfold spawn
  rw [if_neg hpipe, if_neg hclone, h1, h2]

theorem spawn_finish (env : Env) (o : Opts) (hpipe : env.pipe_ret ≠ -1)
    (hclone : env.clone_ret ≠ -1) (t1 t2 : List Event)
    (h1 : uid_stage env o = (t1, none)) (h2 : gid_stage env o = (t2, none)) :
    spawn env o = ([Event.pipe, Event.clone (o.flags ||| SIGCHLD)] ++
      (if o.verbose != 0 then [Event.printf_pid env.clone_ret] else []) ++ t1 ++ t2 ++
        (finish env o).1, (finish env o).2) := by
  unfold spawn
  rw [if_neg hpipe, if_neg hclone, h1, h2]

/-- A failing `update_map`: what it returns, given that the string is within reach of
the `int` index and `write` returns an `ssize_t`. -/
theorem update_map_fails (env : Env) (mapping map_file : CStr)
    (hlen : mapping.length ≤ INT_MAX)
    (hssize : ∀ fd buf n, -2 ^ 63 ≤ env.write_ret fd buf n ∧ env.write_ret fd buf n < 2 ^ 63)
    (hfail : write_fails env map_file mapping) :
    update_map env mapping map_file =
        ([.open_rdwr map_file, .stderr "ERROR: open"], some (.exit EXIT_FAILURE)) ∨
      update_map env mapping map_file =
        ([.open_rdwr map_file,
          .write (.map_file map_file) (mapping.map comma_to_newline) mapping.length,
          .stderr "ERROR: write"], some (.exit EXIT_FAILURE)) := by
  rw [update_map_eq env mapping map_file hlen]
  by_cases hopen : env.open_ret map_file = -1
  · left
    rw [if_pos hopen]
  · right
    rw [if_neg hopen]
    have hne : env.write_ret (.map_file map_file) (mapping.map comma_to_newline)
        mapping.length ≠ Int.ofNat mapping.length := by
      rcases hfail with h | h
      · exact absurd h hopen
      · exact h
    have := to_size_t_ne _ _ hlen (hssize _ _ _).1 (hssize _ _ _).2 hne
    rw [if_pos this]

theorem opens_append (a b : List Event) : opens (a ++ b) = opens a ++ opens b := by
  induction a with
  | nil => rfl
  | cons e rest ih => cases e <;> simp [opens, ih]

theorem writes_append (a b : List Event) : writes (a ++ b) = writes a ++ writes b := by
  induction a with
  | nil => rfl
  | cons e rest ih => cases e <;> simp [writes, ih]

/-- What holds of a run of the parent that stops at a failed call, when nothing
before the failure released or awaited the child. -/
theorem fatal_run (before : List Event) (last : Event)
    (hclose : Event.close Fd.pipe_wr ∉ before) (hwait : ∀ pid, Event.waitpid pid ∉ before)
    (hlast : ∃ msg, last = Event.perror msg ∨ last = Event.stderr msg) :
    Event.close Fd.pipe_wr ∉ before ++ [last] ∧
      (∀ pid, Event.waitpid pid ∉ before ++ [last]) ∧
      (∃ msg, (before ++ [last]).getLast? = some (Event.perror msg) ∨
        (before ++ [last]).getLast? = some (Event.stderr msg)) := by
  obtain ⟨msg, hmsg⟩ := hlast
  refine ⟨?_, ?_, msg, ?_⟩
  · rcases hmsg with h | h <;> simp [hclose, h]
  · intro pid
    rcases hmsg with h | h <;> simp [hwait pid, h]
  · rcases hmsg with h | h <;> simp [h]

theorem start_no_release (env : Env) (o : Opts) :
    Event.close Fd.pipe_wr ∉ ([Event.pipe, Event.clone (o.flags ||| SIGCHLD)] ++
        (if o.verbose != 0 then [Event.printf_pid env.clone_ret] else [])) ∧
      (∀ pid, Event.waitpid pid ∉ ([Event.pipe, Event.clone (o.flags ||| SIGCHLD)] ++
        (if o.verbose != 0 then [Event.printf_pid env.clone_ret] else []))) ∧
      opens ([Event.pipe, Event.clone (o.flags ||| SIGCHLD)] ++
        (if o.verbose != 0 then [Event.printf_pid env.clone_ret] else [])) = [] ∧
      writes ([Event.pipe, Event.clone (o.flags ||| SIGCHLD)] ++
        (if o.verbose != 0 then [Event.printf_pid env.clone_ret] else [])) = [] := by
  split_ifs <;> simp [opens, writes]

/-- A failed update stops the run: the calls so far, then the calls of the failed
update, the last of which is its diagnostic. -/
theorem fatal_update (env : Env) (before : List Event) (mapping map_file : CStr)
    (hlen : mapping.length ≤ INT_MAX)
    (hssize : ∀ fd buf n, -2 ^ 63 ≤ env.write_ret fd buf n ∧ env.write_ret fd buf n < 2 ^ 63)
    (hfail : write_fails env map_file mapping)
    (hclose : Event.close Fd.pipe_wr ∉ before) (hwait : ∀ pid, Event.waitpid pid ∉ before) :
    ∃ t, update_map env mapping map_file = (t, some (Outcome.exit EXIT_FAILURE)) ∧
      Event.close Fd.pipe_wr ∉ before ++ t ∧
      (∀ pid, Event.waitpid pid ∉ before ++ t) ∧
      (∃ msg, (before ++ t).getLast? = some (Event.perror msg) ∨
        (before ++ t).getLast? = some (Event.stderr msg)) ∧
      opens t = [map_file] ∧ (∀ w ∈ writes t, w.1 = Fd.map_file map_file) := by
  rcases update_map_fails env mapping map_file hlen hssize hfail with h | h
  · refine ⟨_, h, ?_⟩
    have := fatal_run (before ++ [Event.open_rdwr map_file]) (Event.stderr "ERROR: open")
      (by simp [hclose]) (fun pid => by simp [hwait pid]) ⟨_, Or.inr rfl⟩
    simp only [List.append_assoc, List.singleton_append] at this
    exact ⟨this.1, this.2.1, this.2.2, by simp [opens], by simp [writes]⟩
  · refine ⟨_, h, ?_⟩
    have := fatal_run (before ++ [Event.open_rdwr map_file,
        Event.write (Fd.map_file map_file) (mapping.map comma_to_newline) mapping.length])
      (Event.stderr "ERROR: write")
      (by simp [hclose]) (fun pid => by simp [hwait pid]) ⟨_, Or.inr rfl⟩
    simp only [List.append_assoc, List.cons_append, List.nil_append] at this
    exact ⟨this.1, this.2.1, this.2.2, by simp [opens], by simp [writes]⟩

/-- The trace of a failing parent. Take an accepted configuration whose mapping
strings are within reach of the `int` index, and an environment whose `write` returns
an `ssize_t`. If `pipe` fails, or `clone` fails, or the UID-map write fails, or the
GID-map write fails (`open` returns `-1` or `write` returns a count other than the
length), then the parent exits with `EXIT_FAILURE`, its last call is the diagnostic of
the failure, it makes no `close` call on the write end of the pipe and no `waitpid`
call. When `pipe` and `clone` succeed and the UID-map write is the one that fails, the
only map file opened is the UID map and every `write` goes to it. -/
theorem failure_is_fatal (env : Env) (opts : List GetoptRet) (o : Opts)
    (hparse : parse_loop Opts.init opts = some o) (hacc : conflict o = false)
    (hulen : ∀ m, uid_text env o = some m → m.length ≤ INT_MAX)
    (hglen : ∀ m, gid_text env o = some m → m.length ≤ INT_MAX)
    (hssize : ∀ fd buf n, -2 ^ 63 ≤ env.write_ret fd buf n ∧ env.write_ret fd buf n < 2 ^ 63)
    (hfail : env.pipe_ret = -1 ∨ env.clone_ret = -1 ∨
      (∃ m, uid_text env o = some m ∧
        write_fails env (map_path env.clone_ret "uid_map") m) ∨
      (∃ m, gid_text env o = some m ∧
        write_fails env (map_path env.clone_ret "gid_map") m)) :
    (main env opts).2 = Outcome.exit EXIT_FAILURE ∧
      Event.close Fd.pipe_wr ∉ (main env opts).1 ∧
      (∀ pid, Event.waitpid pid ∉ (main env opts).1) ∧
      (∃ msg, (main env opts).1.getLast? = some (Event.perror msg) ∨
        (main env opts).1.getLast? = some (Event.stderr msg)) ∧
      (env.pipe_ret ≠ -1 → env.clone_ret ≠ -1 →
        (∃ m, uid_text env o = some m ∧
          write_fails env (map_path env.clone_ret "uid_map") m) →
        opens (main env opts).1 = [map_path env.clone_ret "uid_map"] ∧
          ∀ w ∈ writes (main env opts).1,
            w.1 = Fd.map_file (map_path env.clone_ret "uid_map")) := by
  rw [main_accepted env opts o hparse hacc]
  by_cases hpipe : env.pipe_ret = -1
  · have hrun : spawn env o = ([Event.pipe, Event.perror "pipe"], Outcome.exit EXIT_FAILURE) := by
      unfold spawn
      rw [if_pos hpipe]
    rw [hrun]
    exact ⟨rfl, by simp, by simp, ⟨"pipe", by simp⟩, fun h => absurd hpipe h⟩
  by_cases hclone : env.clone_ret = -1
  · have hrun : spawn env o = ([Event.pipe, Event.clone (o.flags ||| SIGCHLD),
        Event.perror "clone"], Outcome.exit EXIT_FAILURE) := by
      unfold spawn
      rw [if_neg hpipe, if_pos hclone]
    rw [hrun]
    exact ⟨rfl, by simp, by simp, ⟨"clone", by simp⟩, fun _ h => absurd hclone h⟩
  obtain ⟨hsc, hsw, hso, hswr⟩ := start_no_release env o
  have hgid_case : ∀ t1, uid_stage env o = (t1, none) →
      Event.close Fd.pipe_wr ∉ t1 → (∀ pid, Event.waitpid pid ∉ t1) →
      (∃ m, gid_text env o = some m ∧
        write_fails env (map_path env.clone_ret "gid_map") m) →
      (spawn env o).2 = Outcome.exit EXIT_FAILURE ∧
        Event.close Fd.pipe_wr ∉ (spawn env o).1 ∧
        (∀ pid, Event.waitpid pid ∉ (spawn env o).1) ∧
        (∃ msg, (spawn env o).1.getLast? = some (Event.perror msg) ∨
          (spawn env o).1.getLast? = some (Event.stderr msg)) := by
    intro t1 h1 hc1 hw1 ⟨m, hm, hf⟩
    obtain ⟨t2, h2, hc2, hw2, hl2, -, -⟩ := fatal_update env
      ([Event.pipe, Event.clone (o.flags ||| SIGCHLD)] ++
        (if o.verbose != 0 then [Event.printf_pid env.clone_ret] else []) ++ t1)
      m (map_path env.clone_ret "gid_map") (hglen m hm) hssize hf
      (by
        intro h
        rcases List.mem_append.mp h with h | h
        · exact hsc h
        · exact hc1 h)
      (by
        intro pid h
        rcases List.mem_append.mp h with h | h
        · exact hsw pid h
        · exact hw1 pid h)
    have hg : gid_stage env o = (t2, some (Outcome.exit EXIT_FAILURE)) := by
      rw [gid_stage_eq, hm]
      exact h2
    rw [spawn_gid_exit env o hpipe hclone t1 t2 _ h1 hg]
    exact ⟨rfl, hc2, hw2, hl2⟩
  rw [uid_stage_eq] at hgid_case
  cases hu : uid_text env o with
  | none =>
    rw [hu] at hgid_case
    have hg : ∃ m, gid_text env o = some m ∧
        write_fails env (map_path env.clone_ret "gid_map") m := by
      rcases hfail with h | h | ⟨m, hm, -⟩ | h
      · exact absurd h hpipe
      · exact absurd h hclone
      · rw [hu] at hm
        cases hm
      · exact h
    obtain ⟨r1, r2, r3, r4⟩ := hgid_case [] rfl (by simp) (by simp) hg
    refine ⟨r1, r2, r3, r4, ?_⟩
    rintro - - ⟨m, hm, -⟩
    cases hm
  | some mu =>
    rw [hu] at hgid_case
    by_cases hfu : write_fails env (map_path env.clone_ret "uid_map") mu
    · obtain ⟨t1, h1, hc1, hw1, hl1, ho1, hwr1⟩ := fatal_update env
        ([Event.pipe, Event.clone (o.flags ||| SIGCHLD)] ++
          (if o.verbose != 0 then [Event.printf_pid env.clone_ret] else []))
        mu (map_path env.clone_ret "uid_map") (hulen mu hu) hssize hfu hsc hsw
      have hus : uid_stage env o = (t1, some (Outcome.exit EXIT_FAILURE)) := by
        rw [uid_stage_eq, hu]
        exact h1
      rw [spawn_uid_exit env o hpipe hclone t1 _ hus]
      refine ⟨rfl, hc1, hw1, hl1, fun _ _ _ => ⟨?_, ?_⟩⟩
      · rw [opens_append, hso, ho1]
        rfl
      · intro w hw
        rw [writes_append, hswr] at hw
        exact hwr1 w hw
    · have hok : write_ok env (map_path env.clone_ret "uid_map") mu := by
        unfold write_fails at hfu
        push_neg at hfu
        exact ⟨hulen mu hu, hfu.1, hfu.2⟩
      have hg : ∃ m, gid_text env o = some m ∧
          write_fails env (map_path env.clone_ret "gid_map") m := by
        rcases hfail with h | h | ⟨m, hm, hf⟩ | h
        · exact absurd h hpipe
        · exact absurd h hclone
        · rw [hu] at hm
          cases hm
          exact absurd hf hfu
        · exact h
      obtain ⟨r1, r2, r3, r4⟩ := hgid_case _ (update_map_ok env mu _ hok)
        (by simp [map_events]) (by simp [map_events]) hg
      refine ⟨r1, r2, r3, r4, ?_⟩
      rintro - - ⟨m, hm, hf⟩
      cases hm
      exact absurd hf hfu

/-! The exit status of the supervisor -/

theorem update_map_no_wait (env : Env) (mapping map_file : CStr) (pid : Int) :
    Event.waitpid pid ∉ (update_map env mapping map_file).1 := by
  unfold update_map
  simp only
  split_ifs <;> simp

theorem uid_stage_no_wait (env : Env) (o : Opts) (pid : Int) :
    Event.waitpid pid ∉ (uid_stage env o).1 := by
  rw [uid_stage_eq]
  cases uid_text env o with
  | none => simp
  | some m => exact update_map_no_wait env m _ pid

theorem gid_stage_no_wait (env : Env) (o : Opts) (pid : Int) :
    Event.waitpid pid ∉ (gid_stage env o).1 := by
  rw [gid_stage_eq]
  cases gid_text env o with
  | none => simp
  | some m => exact update_map_no_wait env m _ pid

/-- The parent reaches `waitpid` only through `finish`. -/
theorem spawn_wait_reached (env : Env) (o : Opts)
    (hreach : ∃ pid, Event.waitpid pid ∈ (spawn env o).1) :
    (spawn env o).2 = (finish env o).2 := by
  obtain ⟨pid, hpid⟩ := hreach
  obtain ⟨-, hsw, -, -⟩ := start_no_release env o
  by_cases hpipe : env.pipe_ret = -1
  · have hrun : spawn env o = ([Event.pipe, Event.perror "pipe"], Outcome.exit EXIT_FAILURE) := by
      unfold spawn
      rw [if_pos hpipe]
    rw [hrun] at hpid
    simp at hpid
  by_cases hclone : env.clone_ret = -1
  · have hrun : spawn env o = ([Event.pipe, Event.clone (o.flags ||| SIGCHLD),
        Event.perror "clone"], Outcome.exit EXIT_FAILURE) := by
      unfold spawn
      rw [if_neg hpipe, if_pos hclone]
    rw [hrun] at hpid
    simp at hpid
  have hu := uid_stage_no_wait env o pid
  have hg := gid_stage_no_wait env o pid
  rcases h1 : uid_stage env o with ⟨t1, _ | out1⟩
  · rcases h2 : gid_stage env o with ⟨t2, _ | out2⟩
    · rw [spawn_finish env o hpipe hclone t1 t2 h1 h2]
    · rw [h1] at hu
      rw [h2] at hg
      rw [spawn_gid_exit env o hpipe hclone t1 t2 out2 h1 h2] at hpid
      exfalso
      rcases List.mem_append.mp hpid with h | h
      · rcases List.mem_append.mp h with h | h
        · exact hsw pid h
        · exact hu h
      · exact hg h
  · rw [h1] at hu
    rw [spawn_uid_exit env o hpipe hclone t1 out1 h1] at hpid
    exfalso
    rcases List.mem_append.mp hpid with h | h
    · exact hsw pid h
    · exact hu h

/-- Claim C4, as amended. Whatever the termination status of the child (exit with
any code, or death by a signal), when the parent has reached `waitpid` and `waitpid`
has succeeded, `main` of userns_child_exec.c exits with `EXIT_SUCCESS`, that is 0: the
child's status is not read (`waitpid` is called with a null status pointer). -/
theorem exit_status_after_wait (env : Env) (opts : List GetoptRet)
    (hreach : ∃ pid, Event.waitpid pid ∈ (main env opts).1)
    (hwait : env.waitpid_ret ≠ -1) :
    (main env opts).2 = Outcome.exit EXIT_SUCCESS ∧ EXIT_SUCCESS = 0 := by
  refine ⟨?_, rfl⟩
  unfold main at hreach ⊢
  cases hparse : parse_loop Opts.init opts with
  | none =>
    rw [hparse] at hreach
    simp at hreach
  | some o =>
    rw [hparse] at hreach
    simp only at hreach ⊢
    by_cases hc : conflict o = true
    · rw [if_pos hc] at hreach
      simp at hreach
    · rw [if_neg hc] at hreach ⊢
      rw [spawn_wait_reached env o hreach]
      unfold finish
      rw [if_neg hwait]

theorem exit_status_after_wait_witness :
    (main env0 [GetoptRet.U, GetoptRet.z]).2 = Outcome.exit 0 ∧
      (main env_killed [GetoptRet.U, GetoptRet.z]).2 = Outcome.exit 0 :=
  ⟨(exit_status_after_wait env0 [GetoptRet.U, GetoptRet.z] ⟨4242, by decide⟩ (by decide)).1,
    (exit_status_after_wait env_killed [GetoptRet.U, GetoptRet.z] ⟨4242, by decide⟩
      (by decide)).1⟩

/-- Claim C4 fails as stated. The child of `env0` exits with code 3 and the child of
`env_killed` is killed by signal 9; in both runs `waitpid` is reached and succeeds, and
`main` exits with 0: neither the child's code 3 nor a non-zero failure code. -/
theorem exit_status_not_propagated :
    env0.child_status = WaitStatus.exited 3 ∧ env0.waitpid_ret ≠ -1 ∧
      Event.waitpid 4242 ∈ (main env0 [GetoptRet.U, GetoptRet.z]).1 ∧
      (main env0 [GetoptRet.U, GetoptRet.z]).2 = Outcome.exit 0 ∧
      (main env0 [GetoptRet.U, GetoptRet.z]).2 ≠
        Outcome.exit (WEXITSTATUS env0.child_status) ∧
      env_killed.child_status = WaitStatus.signaled 9 ∧ env_killed.waitpid_ret ≠ -1 ∧
      Event.waitpid 4242 ∈ (main env_killed [GetoptRet.U, GetoptRet.z]).1 ∧
      (main env_killed [GetoptRet.U, GetoptRet.z]).2 = Outcome.exit 0 := by
  decide

/-! Mapping strings are not validated -/

theorem spawn_through_uid (env : Env) (o : Opts) (hpipe : env.pipe_ret ≠ -1)
    (hclone : env.clone_ret ≠ -1) :
    ∃ rest, (spawn env o).1 = [Event.pipe, Event.clone (o.flags ||| SIGCHLD)] ++
      (if o.verbose != 0 then [Event.printf_pid env.clone_ret] else []) ++
      (uid_stage env o).1 ++ rest := by
  rcases h1 : uid_stage env o with ⟨t1, _ | out1⟩
  · rcases h2 : gid_stage env o with ⟨t2, _ | out2⟩
    · rw [spawn_finish env o hpipe hclone t1 t2 h1 h2]
      exact ⟨t2 ++ (finish env o).1, by simp⟩
    · rw [spawn_gid_exit env o hpipe hclone t1 t2 out2 h1 h2]
      exact ⟨t2, rfl⟩
  · rw [spawn_uid_exit env o hpipe hclone t1 out1 h1]
    exact ⟨[], by simp⟩

theorem spawn_through_gid (env : Env) (o : Opts) (hpipe : env.pipe_ret ≠ -1)
    (hclone : env.clone_ret ≠ -1) (t1 : List Event) (h1 : uid_stage env o = (t1, none)) :
    ∃ rest, (spawn env o).1 = [Event.pipe, Event.clone (o.flags ||| SIGCHLD)] ++
      (if o.verbose != 0 then [Event.printf_pid env.clone_ret] else []) ++
      t1 ++ (gid_stage env o).1 ++ rest := by
  rcases h2 : gid_stage env o with ⟨t2, _ | out2⟩
  · rw [spawn_finish env o hpipe hclone t1 t2 h1 h2]
    exact ⟨(finish env o).1, rfl⟩
  · rw [spawn_gid_exit env o hpipe hclone t1 t2 out2 h1 h2]
    exact ⟨[], by simp⟩

/-- When `open` succeeds, `update_map` hands the string to `write`, whatever it holds. -/
theorem update_map_writes (env : Env) (mapping map_file : CStr)
    (hlen : mapping.length ≤ INT_MAX) (hopen : env.open_ret map_file ≠ -1) :
    (Fd.map_file map_file, mapping.map comma_to_newline, mapping.length) ∈
      writes (update_map env mapping map_file).1 := by
  rw [update_map_eq env mapping map_file hlen, if_neg hopen]
  split_ifs <;> simp [writes, map_events]

theorem accepted_map_zero (o : Opts) (hacc : conflict o = false)
    (h : o.uid_map.isSome = true ∨ o.gid_map.isSome = true) : (o.map_zero != 0) = false := by
  unfold conflict at hacc
  cases hz : (o.map_zero != 0) with
  | false => rfl
  | true =>
    rw [hz] at hacc
    rcases h with h | h <;> simp [h] at hacc

/-- A `write` that returns another count than the length of the string stops
`update_map` with `EXIT_FAILURE`, right after the diagnostic. -/
theorem update_map_write_rejected (env : Env) (mapping map_file : CStr)
    (hlen : mapping.length ≤ INT_MAX) (hopen : env.open_ret map_file ≠ -1)
    (hlo : -2 ^ 63 ≤
      env.write_ret (.map_file map_file) (mapping.map comma_to_newline) mapping.length)
    (hhi : env.write_ret (.map_file map_file) (mapping.map comma_to_newline) mapping.length <
      2 ^ 63)
    (hne : env.write_ret (.map_file map_file) (mapping.map comma_to_newline) mapping.length ≠
      Int.ofNat mapping.length) :
    update_map env mapping map_file =
      ([.open_rdwr map_file,
        .write (.map_file map_file) (mapping.map comma_to_newline) mapping.length,
        .stderr "ERROR: write"], some (.exit EXIT_FAILURE)) := by
  rw [update_map_eq env mapping map_file hlen, if_neg hopen,
    if_pos (to_size_t_ne _ _ hlen hlo hhi hne)]

/-- Claim C6, as amended. The program does not parse or check a mapping string: what
follows holds for every string, whether or not its records are three integers within
the identifier width. Take an accepted configuration in which `pipe` and `clone`
succeed. For the string given with `-M` (within reach of the `int` index), once the
UID map file opens: the string is handed to the `write` on that file with its commas
replaced by newlines and nothing else changed; if that `write` returns another count
than the length of the string, the run ends there with the diagnostic and
`EXIT_FAILURE`; if it returns the length and the GID stage and `waitpid` succeed, `main`
exits with `EXIT_SUCCESS`. Likewise for the string given with `-G`, once the UID stage
has passed and the GID map file opens. -/
theorem mapping_not_validated (env : Env) (opts : List GetoptRet) (o : Opts)
    (hparse : parse_loop Opts.init opts = some o) (hacc : conflict o = false)
    (hpipe : env.pipe_ret ≠ -1) (hclone : env.clone_ret ≠ -1) :
    (∀ m, arg_M opts = some m → m.length ≤ INT_MAX →
        env.open_ret (map_path env.clone_ret "uid_map") ≠ -1 →
        (Fd.map_file (map_path env.clone_ret "uid_map"), m.map comma_to_newline, m.length) ∈
            writes (main env opts).1 ∧
          (-2 ^ 63 ≤ env.write_ret (Fd.map_file (map_path env.clone_ret "uid_map"))
              (m.map comma_to_newline) m.length →
            env.write_ret (Fd.map_file (map_path env.clone_ret "uid_map"))
              (m.map comma_to_newline) m.length < 2 ^ 63 →
            env.write_ret (Fd.map_file (map_path env.clone_ret "uid_map"))
              (m.map comma_to_newline) m.length ≠ Int.ofNat m.length →
            main env opts =
              ([Event.pipe, Event.clone (o.flags ||| SIGCHLD)] ++
                (if o.verbose != 0 then [Event.printf_pid env.clone_ret] else []) ++
                [Event.open_rdwr (map_path env.clone_ret "uid_map"),
                  Event.write (Fd.map_file (map_path env.clone_ret "uid_map"))
                    (m.map comma_to_newline) m.length,
                  Event.stderr "ERROR: write"],
                Outcome.exit EXIT_FAILURE)) ∧
          (env.write_ret (Fd.map_file (map_path env.clone_ret "uid_map"))
              (m.map comma_to_newline) m.length = Int.ofNat m.length →
            (∀ mg, gid_text env o = some mg →
              write_ok env (map_path env.clone_ret "gid_map") mg) →
            env.waitpid_ret ≠ -1 →
            (main env opts).2 = Outcome.exit EXIT_SUCCESS)) ∧
      (∀ m, arg_G opts = some m → m.length ≤ INT_MAX →
        (∀ mu, uid_text env o = some mu →
          write_ok env (map_path env.clone_ret "uid_map") mu) →
        env.open_ret (map_path env.clone_ret "gid_map") ≠ -1 →
        (Fd.map_file (map_path env.clone_ret "gid_map"), m.map comma_to_newline, m.length) ∈
            writes (main env opts).1 ∧
          (-2 ^ 63 ≤ env.write_ret (Fd.map_file (map_path env.clone_ret "gid_map"))
              (m.map comma_to_newline) m.length →
            env.write_ret (Fd.map_file (map_path env.clone_ret "gid_map"))
              (m.map comma_to_newline) m.length < 2 ^ 63 →
            env.write_ret (Fd.map_file (map_path env.clone_ret "gid_map"))
              (m.map comma_to_newline) m.length ≠ Int.ofNat m.length →
            main env opts =
              ([Event.pipe, Event.clone (o.flags ||| SIGCHLD)] ++
                (if o.verbose != 0 then [Event.printf_pid env.clone_ret] else []) ++
                map_events (map_path env.clone_ret "uid_map") (uid_text env o) ++
                [Event.open_rdwr (map_path env.clone_ret "gid_map"),
                  Event.write (Fd.map_file (map_path env.clone_ret "gid_map"))
                    (m.map comma_to_newline) m.length,
                  Event.stderr "ERROR: write"],
                Outcome.exit EXIT_FAILURE)) ∧
          (env.write_ret (Fd.map_file (map_path env.clone_ret "gid_map"))
              (m.map comma_to_newline) m.length = Int.ofNat m.length →
            env.waitpid_ret ≠ -1 →
            (main env opts).2 = Outcome.exit EXIT_SUCCESS)) := by
  obtain ⟨-, hu, hg, -, -⟩ := parse_loop_spec opts o hparse
  rw [main_accepted env opts o hparse hacc]
  have hfin : env.waitpid_ret ≠ -1 → (finish env o).2 = Outcome.exit EXIT_SUCCESS := by
    intro hw
    unfold finish
    rw [if_neg hw]
  constructor
  · intro m hm hlen hopen
    rw [hm] at hu
    have hz := accepted_map_zero o hacc (Or.inl (by rw [hu]; rfl))
    have htext : uid_text env o = some m := by
      unfold uid_text
      rw [hz, hu]
      rfl
    have hstage : uid_stage env o = update_map env m (map_path env.clone_ret "uid_map") := by
      rw [uid_stage_eq, htext]
    refine ⟨?_, ?_, ?_⟩
    · obtain ⟨rest, hrest⟩ := spawn_through_uid env o hpipe hclone
      rw [hrest, hstage, writes_append, writes_append]
      exact List.mem_append_left _
        (List.mem_append_right _ (update_map_writes env m _ hlen hopen))
    · intro hlo hhi hne
      have hrej := update_map_write_rejected env m _ hlen hopen hlo hhi hne
      exact spawn_uid_exit env o hpipe hclone _ _ (hstage.trans hrej)
    · intro hw hgid hwait
      have huid : ∀ mu, uid_text env o = some mu →
          write_ok env (map_path env.clone_ret "uid_map") mu := by
        intro mu hmu
        rw [htext] at hmu
        cases hmu
        exact ⟨hlen, hopen, hw⟩
      rw [spawn_finish env o hpipe hclone _ _ (uid_stage_ok env o huid)
        (gid_stage_ok env o hgid)]
      exact hfin hwait
  · intro m hm hlen huid hopen
    rw [hm] at hg
    have hz := accepted_map_zero o hacc (Or.inr (by rw [hg]; rfl))
    have htext : gid_text env o = some m := by
      unfold gid_text
      rw [hz, hg]
      rfl
    have hstage : gid_stage env o = update_map env m (map_path env.clone_ret "gid_map") := by
      rw [gid_stage_eq, htext]
    refine ⟨?_, ?_, ?_⟩
    · obtain ⟨rest, hrest⟩ := spawn_through_gid env o hpipe hclone _ (uid_stage_ok env o huid)
      rw [hrest, hstage, writes_append, writes_append]
      exact List.mem_append_left _
        (List.mem_append_right _ (update_map_writes env m _ hlen hopen))
    · intro hlo hhi hne
      have hrej := update_map_write_rejected env m _ hlen hopen hlo hhi hne
      exact spawn_gid_exit env o hpipe hclone _ _ _ (uid_stage_ok env o huid)
        (hstage.trans hrej)
    · intro hw hwait
      have hgid : ∀ mg, gid_text env o = some mg →
          write_ok env (map_path env.clone_ret "gid_map") mg := by
        intro mg hmg
        rw [htext] at hmg
        cases hmg
        exact ⟨hlen, hopen, hw⟩
      rw [spawn_finish env o hpipe hclone _ _ (uid_stage_ok env o huid)
        (gid_stage_ok env o hgid)]
      exact hfin hwait

theorem mapping_not_validated_witness :
    (Fd.map_file "/proc/4242/uid_map".toList, "0 1000".toList, 6) ∈
        writes (main env0 [GetoptRet.U, GetoptRet.M "0 1000".toList]).1 ∧
      (main env0 [GetoptRet.U, GetoptRet.M "0 1000".toList]).2 = Outcome.exit EXIT_SUCCESS ∧
      main env_write_fails [GetoptRet.U, GetoptRet.M "0 1000".toList] =
        ([Event.pipe, Event.clone (CLONE_NEWUSER ||| SIGCHLD),
          Event.open_rdwr "/proc/4242/uid_map".toList,
          Event.write (Fd.map_file "/proc/4242/uid_map".toList) "0 1000".toList 6,
          Event.stderr "ERROR: write"], Outcome.exit EXIT_FAILURE) := by
  have h0 := (mapping_not_validated env0 [GetoptRet.U, GetoptRet.M "0 1000".toList]
    ⟨CLONE_NEWUSER, 0, some "0 1000".toList, none, 0⟩ (by decide) (by decide) (by decide)
    (by decide)).1 "0 1000".toList (by decide) (by decide) (by decide)
  have h1 := (mapping_not_validated env_write_fails
    [GetoptRet.U, GetoptRet.M "0 1000".toList]
    ⟨CLONE_NEWUSER, 0, some "0 1000".toList, none, 0⟩ (by decide) (by decide) (by decide)
    (by decide)).1 "0 1000".toList (by decide) (by decide) (by decide)
  refine ⟨h0.1, h0.2.2 (by decide) ?_ (by decide), (h1.2.1 (by decide) (by decide)
    (by decide)).trans (by decide)⟩
  intro mg hmg
  simp [gid_text] at hmg

/-- Claim C6 fails as stated. With `-M "0 1000"` (a record of two integers), with
`-M "uid 1000 1"` (not an integer) and with `-G "0 99999999999999999999999999 1"` (an
integer beyond every identifier width) the text reaches the `write` on the map file
unchanged, and when the calls succeed `main` exits with `EXIT_SUCCESS`. -/
theorem malformed_mapping_written :
    writes (main env0 [GetoptRet.U, GetoptRet.M "0 1000".toList]).1 =
        [(Fd.map_file "/proc/4242/uid_map".toList, "0 1000".toList, 6)] ∧
      (main env0 [GetoptRet.U, GetoptRet.M "0 1000".toList]).2 = Outcome.exit EXIT_SUCCESS ∧
      writes (main env0 [GetoptRet.U, GetoptRet.M "uid 1000 1".toList]).1 =
        [(Fd.map_file "/proc/4242/uid_map".toList, "uid 1000 1".toList, 10)] ∧
      (main env0 [GetoptRet.U, GetoptRet.M "uid 1000 1".toList]).2 =
        Outcome.exit EXIT_SUCCESS ∧
      writes (main env0
          [GetoptRet.U, GetoptRet.G "0 99999999999999999999999999 1".toList]).1 =
        [(Fd.map_file "/proc/4242/gid_map".toList,
          "0 99999999999999999999999999 1".toList, 30)] ∧
      (main env0 [GetoptRet.U, GetoptRet.G "0 99999999999999999999999999 1".toList]).2 =
        Outcome.exit EXIT_SUCCESS := by
  decide

/-! The child -/

/-- Claim C7. For every result `r` of the child's one-byte `read`: the child first
closes its write end of the pipe and then reads one byte from the read end; it calls
`execvp` if and only if `r = 0`, and then with `args->argv[0]` and `args->argv`
unchanged; when `r` is not 0 it exits with `EXIT_FAILURE` without calling `execvp`;
when a command was given and `execvp` returns, it exits with `EXIT_FAILURE`, and when
`execvp` does not return the image is replaced. When no command was given
(`args->argv[0]` is null) the call of `execvp` is undefined behaviour. -/
theorem child_awaits_release (args : child_args) (r : Int) (execvp_ret : Option Int) :
    (∃ rest, (childFunc args r execvp_ret).1 =
        Event.close Fd.pipe_wr :: Event.read Fd.pipe_rd 1 :: rest) ∧
      ((∃ file argv, Event.execvp file argv ∈ (childFunc args r execvp_ret).1) ↔ r = 0) ∧
      (∀ file argv, Event.execvp file argv ∈ (childFunc args r execvp_ret).1 →
        file = args.argv.head? ∧ argv = args.argv) ∧
      (r ≠ 0 → (childFunc args r execvp_ret).2 = Outcome.exit EXIT_FAILURE) ∧
      (r = 0 → args.argv ≠ [] → execvp_ret.isSome = true →
        (childFunc args r execvp_ret).2 = Outcome.exit EXIT_FAILURE) ∧
      (r = 0 → args.argv ≠ [] → execvp_ret = none →
        (childFunc args r execvp_ret).2 = Outcome.exec) ∧
      (r = 0 → args.argv = [] → (childFunc args r execvp_ret).2 = Outcome.undefined) := by
  obtain ⟨argv⟩ := args
  by_cases hr : r = 0
  · subst hr
    cases argv with
    | nil => simp [childFunc]
    | cons file rest => cases execvp_ret <;> simp [childFunc]
  · simp [childFunc, hr]

/-! A failed mapping write and the child -/

/-- Claim C8, the behaviour of the code. Take an accepted configuration whose
mapping strings are within reach of the `int` index, an environment whose `write`
returns an `ssize_t`, and a run in which `pipe` and `clone` succeed, so that the child
exists, and the UID-map or the GID-map write fails. The parent exits with
`EXIT_FAILURE` without a `close` call on the write end of the pipe and without
`waitpid`, as the claim says. But the channel
is released all the same: the exit closes the parent's write end, so the child's
`read` returns 0 and the child, given a command, goes on to `execvp` although the
mapping was not written. -/
theorem failed_mapping_releases_child (env : Env) (opts : List GetoptRet) (o : Opts)
    (hparse : parse_loop Opts.init opts = some o) (hacc : conflict o = false)
    (hulen : ∀ m, uid_text env o = some m → m.length ≤ INT_MAX)
    (hglen : ∀ m, gid_text env o = some m → m.length ≤ INT_MAX)
    (hssize : ∀ fd buf n, -2 ^ 63 ≤ env.write_ret fd buf n ∧ env.write_ret fd buf n < 2 ^ 63)
    (hpipe : env.pipe_ret ≠ -1) (hclone : env.clone_ret ≠ -1)
    (hfail : (∃ m, uid_text env o = some m ∧
        write_fails env (map_path env.clone_ret "uid_map") m) ∨
      (∃ m, gid_text env o = some m ∧
        write_fails env (map_path env.clone_ret "gid_map") m))
    (args : child_args) (hargs : args.argv ≠ []) (execvp_ret : Option Int) :
    Event.clone (o.flags ||| SIGCHLD) ∈ (main env opts).1 ∧
      (main env opts).2 = Outcome.exit EXIT_FAILURE ∧
      Event.close Fd.pipe_wr ∉ (main env opts).1 ∧
      (∀ pid, Event.waitpid pid ∉ (main env opts).1) ∧
      write_end_closed (main env opts) = true ∧
      child_read (main env opts) = some 0 ∧
      ∃ child, child_run (main env opts) args execvp_ret = some child ∧
        Event.execvp args.argv.head? args.argv ∈ child.1 := by
  obtain ⟨hexit, hclose, hwait, -, -⟩ := failure_is_fatal env opts o hparse hacc hulen hglen
    hssize (Or.inr (Or.inr hfail))
  have hcloned : Event.clone (o.flags ||| SIGCHLD) ∈ (main env opts).1 := by
    obtain ⟨rest, hrest⟩ := spawn_through_uid env o hpipe hclone
    rw [main_accepted env opts o hparse hacc, hrest]
    simp
  have hclosed : write_end_closed (main env opts) = true := by
    unfold write_end_closed
    rw [hexit]
    simp
  have hread : child_read (main env opts) = some 0 := by
    unfold child_read
    rw [if_pos hclosed]
  refine ⟨hcloned, hexit, hclose, hwait, hclosed, hread, childFunc args 0 execvp_ret, ?_, ?_⟩
  · unfold child_run
    rw [hread]
  · obtain ⟨argv⟩ := args
    cases argv with
    | nil => exact absurd rfl hargs
    | cons file rest => cases execvp_ret <;> simp [childFunc]

theorem failed_mapping_releases_child_witness :
    (main env_write_fails [GetoptRet.U, GetoptRet.z]).2 = Outcome.exit EXIT_FAILURE ∧
      Event.close Fd.pipe_wr ∉ (main env_write_fails [GetoptRet.U, GetoptRet.z]).1 ∧
      child_run (main env_write_fails [GetoptRet.U, GetoptRet.z]) ⟨["/bin/sh".toList]⟩ none =
        some ([Event.close Fd.pipe_wr, Event.read Fd.pipe_rd 1,
          Event.printf_exec (some "/bin/sh".toList),
          Event.execvp (some "/bin/sh".toList) ["/bin/sh".toList]], Outcome.exec) := by
  have h := failed_mapping_releases_child env_write_fails [GetoptRet.U, GetoptRet.z]
    ⟨CLONE_NEWUSER, 0, none, none, 1⟩ (by decide) (by decide)
    (fun m hm => by
      have hm2 : m = "0 1000 1".toList := by
        have : zero_map (Int.ofNat env_write_fails.getuid) = "0 1000 1".toList := by decide
        simpa [uid_text, this] using hm.symm
      subst hm2
      decide)
    (fun m hm => by
      have hm2 : m = "0 1000 1".toList := by
        have : zero_map (Int.ofNat env_write_fails.getgid) = "0 1000 1".toList := by decide
        simpa [gid_text, this] using hm.symm
      subst hm2
      decide)
    (fun _ _ _ => ⟨show -2 ^ 63 ≤ (-1 : Int) by decide, show (-1 : Int) < 2 ^ 63 by decide⟩)
    (by decide) (by decide)
    (Or.inl ⟨"0 1000 1".toList, by decide, Or.inr (by decide)⟩)
    ⟨["/bin/sh".toList]⟩ (by decide) none
  exact ⟨h.2.1, h.2.2.1, by decide⟩

end Launcher

/-! The exit status of `clone.c` -/

namespace CloneLauncher

open Launcher

/-- Claim C9, the behaviour of the code. When `clone` fails (returns `-1`) `main` of
clone.c reports `failed clone` and exits with `EXIT_SUCCESS`, that is 0, for every
wait status: not the non-zero failure code of the claim. When `clone` succeeds, the
exit code is the child's own code if the child exited normally and `EXIT_FAILURE` if
it was killed by a signal. -/
theorem clone_failure_exits_success :
    (∀ status, main true (-1) status =
        ([Event.malloc STACK_SIZE, Event.clone CLONE_FLAGS, Event.perror "failed clone"],
          Outcome.exit 0)) ∧
      (∀ pid code, pid ≠ -1 → code < 256 →
        (main true pid (WaitStatus.exited code)).2 = Outcome.exit code) ∧
      (∀ pid sig, pid ≠ -1 →
        (main true pid (WaitStatus.signaled sig)).2 = Outcome.exit EXIT_FAILURE) := by
  refine ⟨fun _ => rfl, ?_, ?_⟩
  · intro pid code hpid hcode
    unfold main
    simp [hpid, WIFEXITED, WEXITSTATUS, Nat.mod_eq_of_lt hcode]
  · intro pid sig hpid
    unfold main
    simp [hpid, WIFEXITED]

end CloneLauncher
